import Mathlib

/-!
Shallow embedding of the BB-Betting per-site workflow layer: the three concrete
site workflows of the repository (Sports411Workflow, BetOnlineWorkflow,
PinnacleWorkflow) together with the parts of the shared BaseSiteWorkflow they
use. Browser-capability calls are modeled as environment-indexed responses;
every capability call bumps a call counter and appends an action to a trace, so
properties about performed actions and about fault propagation can be stated.
-/

/-- Does the character list start with the pattern list. -/
def listHasPrefix : List Char → List Char → Bool
  | _, [] => true
  | [], _ :: _ => false
  | c :: cs, d :: ds => c == d && listHasPrefix cs ds

/-- Does the character list contain the pattern list as a contiguous run. -/
def listHasInfix (pat : List Char) : List Char → Bool
  | [] => listHasPrefix [] pat
  | c :: cs => listHasPrefix (c :: cs) pat || listHasInfix pat cs

/-- JS String.prototype.includes, modeled on character lists. -/
def strIncludes (s sub : String) : Bool := listHasInfix sub.toList s.toList

/-- JS String.prototype.endsWith, modeled on character lists. -/
def strEndsWith (s pat : String) : Bool :=
  s.toList.drop (s.toList.length - pat.toList.length) == pat.toList

/-- An ASCII whitespace character, the cases relevant to the scraped texts. -/
def isWs (c : Char) : Bool := c == ' ' || c == '\t' || c == '\n' || c == '\r'

/-- JS String.prototype.trim, modeled on character lists: strip leading and
trailing whitespace. -/
def jsTrim (s : String) : String :=
  String.mk (((s.toList.dropWhile isWs).reverse.dropWhile isWs).reverse)

/-- Modelled from the spec: WorkflowResult, the tagged outcome of every
workflow operation (success flag, optional payload, optional error message),
declared in src/types/index.ts which is not under src/. The source's wall-clock
timestamp field is omitted; no claim depends on it. -/
structure WorkflowResult (α : Type) where
  success : Bool
  data : Option α
  error : Option String
deriving DecidableEq, Repr

/-- One browser-capability action performed by a workflow, recorded in the
trace. -/
inductive Act where
  | qexists (sel : String)
  | click (sel : String)
  | typeText (sel : String)
  | waitForSel (sel : String)
  | getUrl
  | evalJs (tag : String)
  | sleep (ms : Nat)
  | delay (lo hi : Nat)
  | saveSession
  | baseLogin
deriving DecidableEq, Repr

/-- Monad state: the capability-call counter and the action trace. -/
structure MSt where
  ctr : Nat
  tr : List Act
deriving DecidableEq, Repr

/-- Workflow computations: explicit state passing plus JS-style exceptions.
An (Except.error e, st) outcome is an exception propagating out with the
actions already performed kept in st. -/
def M (α : Type) : Type := MSt → Except String α × MSt

def M.pure {α : Type} (a : α) : M α := fun st => (Except.ok a, st)

def M.bind {α β : Type} (m : M α) (f : α → M β) : M β := fun st =>
  match m st with
  | (Except.ok a, st1) => f a st1
  | (Except.error e, st1) => (Except.error e, st1)

instance : Monad M where
  pure := M.pure
  bind := M.bind

theorem M.bind_def {α β : Type} (m : M α) (f : α → M β) : (m >>= f) = M.bind m f := rfl

theorem M.pure_def {α : Type} (a : α) : (pure a : M α) = M.pure a := rfl

theorem M.pure_eval {α : Type} (a : α) (st : MSt) : (pure a : M α) st = (Except.ok a, st) := rfl

theorem M.purePure_eval {α : Type} (a : α) (st : MSt) :
    @Pure.pure M _ α a st = (Except.ok a, st) := rfl

theorem M.bind_eval {α β : Type} (m : M α) (f : α → M β) (st : MSt) :
    (m >>= f) st
      = match m st with
        | (Except.ok a, st1) => f a st1
        | (Except.error e, st1) => (Except.error e, st1) := rfl

/-- JS try/catch: actions performed before the throw survive into the handler. -/
def tryCatchM {α : Type} (m : M α) (h : String → M α) : M α := fun st =>
  match m st with
  | (Except.ok a, st1) => (Except.ok a, st1)
  | (Except.error e, st1) => h e st1

instance {ε α : Type} [DecidableEq ε] [DecidableEq α] : DecidableEq (Except ε α) := fun x y =>
  match x, y with
  | Except.ok a, Except.ok b =>
    if h : a = b then isTrue (by rw [h]) else isFalse (fun he => by cases he; exact h rfl)
  | Except.error e, Except.error f =>
    if h : e = f then isTrue (by rw [h]) else isFalse (fun he => by cases he; exact h rfl)
  | Except.ok _, Except.error _ => isFalse (fun he => by cases he)
  | Except.error _, Except.ok _ => isFalse (fun he => by cases he)

/-- DOM text of one BetOnline bet-history row: the textContent of the column
divs found by querySelectorAll, a missing column or null text being none. -/
structure RowBO where
  cols : List (Option String)
deriving DecidableEq, Repr

/-- Try to match the money-amount regex of BetOnlineWorkflow.getBetHistory (a
dollar sign, a nonempty run of digits and commas, a dot, a nonempty digit run)
at the head of the character list, returning the matched characters and the
rest. The greedy character classes of the source regex admit no backtracking
alternatives, so taking maximal runs is exact. -/
def matchAmountAt : List Char → Option (List Char × List Char)
  | '$' :: rest =>
    let run1 := rest.takeWhile fun c => c.isDigit || c == ','
    if run1.isEmpty then none
    else
      match rest.drop run1.length with
      | '.' :: rest2 =>
        let run2 := rest2.takeWhile Char.isDigit
        if run2.isEmpty then none
        else some ('$' :: (run1 ++ '.' :: run2), rest2.drop run2.length)
      | _ => none
  | _ => none

/-- Fuel-indexed scan for all non-overlapping amount matches, left to right, as
the source's global regex match does. The fuel is the string length, an upper
bound on the scan steps, since every step consumes at least one character. -/
def dollarScan : Nat → List Char → List String
  | 0, _ => []
  | _ + 1, [] => []
  | n + 1, c :: cs =>
    match matchAmountAt (c :: cs) with
    | some (m, rest) => String.mk m :: dollarScan n rest
    | none => dollarScan n cs

def dollarAmounts (s : String) : List String := dollarScan s.length s.toList

/-- One scraped BetOnline bet record, as built inside the page.evaluate of
getBetHistory (the wall-clock scrapedAt field is omitted). -/
structure BOBet where
  betId : Option String
  date : Option String
  description : Option String
  betType : Option String
  status : String
  stake : String
  toWin : String
  site : String
deriving DecidableEq, Repr

/-- The BetOnline row mapper from getBetHistory's page.evaluate: column texts
0/1/2/4/5/6 become betId, date, description, betType, status and stake, and
toWin. JS optional chains ending in undefined are modeled as none; the
undefined-falsy ternary chain for status coincides with testing the empty
string. -/
def mapBORow (r : RowBO) : BOBet :=
  let col := fun i => r.cols.getD i none
  let amountTextRaw := (col 5).getD ""
  let amountText := ((col 5).map jsTrim).getD ""
  let amounts := dollarAmounts amountText
  { betId := (col 0).map fun s => String.mk ((jsTrim s).toList.filter fun c => c.isDigit || c == '-')
    date := (col 1).map jsTrim
    description := (col 2).map jsTrim
    betType := (col 4).map jsTrim
    status :=
      if strIncludes amountTextRaw "Won" then "Won"
      else if strIncludes amountTextRaw "Lost" then "Lost"
      else if strIncludes amountTextRaw "Cancel" then "Cancelled"
      else "Pending"
    stake := amounts.headD ""
    toWin := ((col 6).bind fun s => (dollarAmounts s).head?).getD ""
    site := "betonline" }

/-- One scraped Sports411 bet record. The mapping from ticket DOM text to these
fields runs inside page.evaluate over DOM that is part of the environment, so
the record list an extraction round yields is supplied by the environment. -/
structure Bet411 where
  betId : Option String
  betType : Option String
  selection : Option String
  date : Option String
  time : Option String
  riskWin : Option String
  winLoss : Option String
deriving DecidableEq, Repr

/-- The status union type of PinnacleBetHistoryItem. -/
inductive PinStatus where
  | pending | won | lost | void | cashout
deriving DecidableEq, Repr

/-- PinnacleBetHistoryItem, reduced to the fields claims mention; the Pinnacle
extraction is an unimplemented placeholder that yields no items. -/
structure PinBet where
  betId : String
  status : PinStatus
deriving DecidableEq, Repr

/-- The environment: responses of the browser-capability layer, indexed by the
call counter so that page state may evolve across calls. An Except.error
response is a thrown capability fault. -/
structure Env where
  existsRes : Nat → String → Except String Bool
  clickRes : Nat → String → Except String Unit
  typeRes : Nat → String → Except String Unit
  waitRes : Nat → String → Except String Unit
  urlRes : Nat → String
  evalUnit : Nat → String → Except String Unit
  evalSolved : Nat → Except String Bool
  rowsBO : Nat → Except String (List RowBO)
  bets411 : Nat → Except String (List Bet411)
  saveRes : Nat → Except String Unit
  baseLoginRes : Nat → Except String (WorkflowResult Unit)

/-- this.exists(sel) and the existence side of page query calls. -/
def qexists (env : Env) (sel : String) : M Bool := fun st =>
  (env.existsRes st.ctr sel, ⟨st.ctr + 1, st.tr ++ [Act.qexists sel]⟩)

def clickM (env : Env) (sel : String) : M Unit := fun st =>
  (env.clickRes st.ctr sel, ⟨st.ctr + 1, st.tr ++ [Act.click sel]⟩)

def typeM (env : Env) (sel _text : String) : M Unit := fun st =>
  (env.typeRes st.ctr sel, ⟨st.ctr + 1, st.tr ++ [Act.typeText sel]⟩)

def waitForM (env : Env) (sel : String) (_ms : Nat) : M Unit := fun st =>
  (env.waitRes st.ctr sel, ⟨st.ctr + 1, st.tr ++ [Act.waitForSel sel]⟩)

def urlM (env : Env) : M String := fun st =>
  (Except.ok (env.urlRes st.ctr), ⟨st.ctr + 1, st.tr ++ [Act.getUrl]⟩)

def sleepM (ms : Nat) : M Unit := fun st =>
  (Except.ok (), ⟨st.ctr, st.tr ++ [Act.sleep ms]⟩)

/-- Modelled from the spec: BaseSiteWorkflow.randomDelay (not under src/), the
pacing controller drawing a uniformly random delay between lo and hi
milliseconds; the drawn duration influences no claim, so only the pacing action
is recorded. -/
def randomDelayM (lo hi : Nat) : M Unit := fun st =>
  (Except.ok (), ⟨st.ctr, st.tr ++ [Act.delay lo hi]⟩)

/-- Modelled from the spec: BaseSiteWorkflow.saveSession (not under src/),
persistence of the current browser session state; a capability call, so it may
fault. -/
def saveSessionM (env : Env) : M Unit := fun st =>
  (env.saveRes st.ctr, ⟨st.ctr + 1, st.tr ++ [Act.saveSession]⟩)

/-- Modelled from the spec: BaseSiteWorkflow.login (not under src/), the
adapter's external/manual completion path that PinnacleWorkflow.login falls
back to; its outcome is supplied by the environment. -/
def baseLoginM (env : Env) : M (WorkflowResult Unit) := fun st =>
  (env.baseLoginRes st.ctr, ⟨st.ctr + 1, st.tr ++ [Act.baseLogin]⟩)

def evalUnitM (env : Env) (tag : String) : M Unit := fun st =>
  (env.evalUnit st.ctr tag, ⟨st.ctr + 1, st.tr ++ [Act.evalJs tag]⟩)

/-- The grecaptcha poll: page.evaluate(..).catch of BetOnlineWorkflow.login
maps a fault to false inside the source, so the wrapper cannot throw. -/
def evalSolvedM (env : Env) : M Bool := fun st =>
  (match env.evalSolved st.ctr with
   | Except.ok b => Except.ok b
   | Except.error _ => Except.ok false,
   ⟨st.ctr + 1, st.tr ++ [Act.evalJs "captchaSolved"]⟩)

/-- The Sports411 extraction round: page.evaluate over app-history-ticket DOM. -/
def extract411M (env : Env) : M (List Bet411) := fun st =>
  (env.bets411 st.ctr, ⟨st.ctr + 1, st.tr ++ [Act.evalJs "extract411"]⟩)

/-- The BetOnline extraction: page.evaluate collecting the history table rows;
the row texts come from the DOM (environment), the mapping is mapBORow. -/
def rowsBOM (env : Env) : M (List RowBO) := fun st =>
  (env.rowsBO st.ctr, ⟨st.ctr + 1, st.tr ++ [Act.evalJs "extractBO"]⟩)

/-- Modelled from the spec: BaseSiteWorkflow.result (not under src/), building
the WorkflowResult from success flag, payload and optional error message. -/
def resultR {α : Type} (success : Bool) (data : α) (err : Option String) :
    WorkflowResult α :=
  ⟨success, some data, err⟩

/-- The inline success literal of the login methods. -/
def mkSuccess : WorkflowResult Unit := ⟨true, none, none⟩

/-- The inline failure literal of the login methods. -/
def mkFailure (e : String) : WorkflowResult Unit := ⟨false, none, some e⟩

/-- Stored credentials of a SiteConfig; username or password may be absent. -/
structure Config where
  username : Option String
  password : Option String

/-- JS truthiness of an optional string: undefined and the empty string are
falsy, so empty credentials count as not configured. -/
def truthy : Option String → Bool
  | none => false
  | some s => !(s == "")

def sel411Form : String := "input[placeholder=\"Account\"], input[name=\"account\"]"
def sel411Btn : String := "button:has-text(\"LOG IN\"), input[value=\"LOG IN\"]"

/-- Sports411Workflow.isLoggedIn: two logged-out probes, then a URL check whose
branches both return true. -/
def Sports411Workflow.isLoggedIn (env : Env) : M Bool := do
  let hasLoginForm ← qexists env sel411Form
  let hasLoginButton ← qexists env sel411Btn
  if hasLoginForm || hasLoginButton then
    pure false
  else do
    let url ← urlM env
    if strIncludes url "/en/" && !strEndsWith url ".ag/" then
      pure true
    else
      pure true

def selBOLoginBtn : String := "button:has-text(\"LOGIN\"), a:has-text(\"LOGIN\")"
def selBOKcLogin : String := "#kc-login"
def selBOBalance : String := "[class*=\"balance\"], [class*=\"account-info\"]"

/-- BetOnlineWorkflow.isLoggedIn. -/
def BetOnlineWorkflow.isLoggedIn (env : Env) : M Bool := do
  let hasLoginBtn ← qexists env selBOLoginBtn
  let hasKcLogin ← qexists env selBOKcLogin
  if hasLoginBtn || hasKcLogin then
    pure false
  else
    qexists env selBOBalance

def selPinSignIn : String := "button:has-text(\"SIGN IN\")"
def selPinUser : String := "input[placeholder=\"Username\"]"
def selPinPass : String := "input[type=\"password\"]"
def selPinMenu : String := ".account-menu, .user-menu, .balance"
def selPinLogout : String := "[data-action=\"logout\"], .logout, a[href*=\"logout\"]"

/-- PinnacleWorkflow.isLoggedIn. -/
def PinnacleWorkflow.isLoggedIn (env : Env) : M Bool := do
  let hasSignInButton ← qexists env selPinSignIn
  let hasUsernameField ← qexists env selPinUser
  let hasPasswordField ← qexists env selPinPass
  if hasSignInButton || hasUsernameField || hasPasswordField then
    pure false
  else do
    let hasAccountMenu ← qexists env selPinMenu
    let hasLogoutOption ← qexists env selPinLogout
    pure (hasAccountMenu || hasLogoutOption)

/-- The first-match-wins selector loops of Sports411Workflow.login: try each
selector in order, act on the first that exists, then stop. -/
def fillFirst (env : Env) (text : String) : List String → M Unit
  | [] => pure ()
  | sel :: rest => do
    let b ← qexists env sel
    if b then typeM env sel text else fillFirst env text rest

def clickFirst (env : Env) : List String → M Unit
  | [] => pure ()
  | sel :: rest => do
    let b ← qexists env sel
    if b then clickM env sel else clickFirst env rest

def noCredsMsg : String := "No credentials provided"

/-- Sports411Workflow.login. After clicking the login button it waits and then
saves the session and reports success unconditionally, with no re-check of
isLoggedIn. -/
def Sports411Workflow.login (env : Env) (cfg : Config) : M (WorkflowResult Unit) := do
  let li ← Sports411Workflow.isLoggedIn env
  if li then pure mkSuccess
  else if truthy cfg.username && truthy cfg.password then
    tryCatchM
      (do
        fillFirst env (cfg.username.getD "")
          ["input[placeholder=\"Account\"]", "input[name=\"account\"]", "#account"]
        randomDelayM 1200 2500
        fillFirst env (cfg.password.getD "")
          ["input[placeholder=\"Password\"]", "input[name=\"password\"]", "#password", "input[type=\"password\"]"]
        randomDelayM 800 1800
        clickFirst env
          ["button:has-text(\"LOG IN\")", "input[value=\"LOG IN\"]", "input.btn.login", ".login-btn"]
        randomDelayM 3000 5000
        saveSessionM env
        pure mkSuccess)
      (fun e => pure (mkFailure e))
  else pure (mkFailure noCredsMsg)

def selRecaptcha : String := "iframe[src*=\"recaptcha\"], .g-recaptcha, #recaptcha"

/-- The reCAPTCHA wait loop of BetOnlineWorkflow.login. The source loops while
Date.now() minus startTime stays below 60000 ms, sleeping 2000 ms per
iteration; that sleep is the only time advance inside the loop, so the elapsed
time at the i-th check is 2000 * i and the loop admits exactly the polls with
i below 30. The argument counts the polls still admitted. The outcome is some r
when the loop hit the early return (login achieved during the wait) and none
when it exited by break (solved) or by running out the timeout. -/
def captchaWaitFrom (env : Env) : Nat → M (Option (WorkflowResult Unit))
  | 0 => pure none
  | n + 1 => do
    let solved ← evalSolvedM env
    if solved then pure none
    else do
      let li ← BetOnlineWorkflow.isLoggedIn env
      if li then do
        saveSessionM env
        pure (some mkSuccess)
      else do
        sleepM 2000
        captchaWaitFrom env n

/-- The 60000 ms timeout divided by the 2000 ms poll interval. -/
def captchaPolls : Nat := 30

/-- BetOnlineWorkflow.login. After the captcha wait exits by break or timeout,
the code falls through to click the submit button, save the session and report
success. -/
def BetOnlineWorkflow.login (env : Env) (cfg : Config) : M (WorkflowResult Unit) := do
  let li ← BetOnlineWorkflow.isLoggedIn env
  if li then pure mkSuccess
  else if truthy cfg.username && truthy cfg.password then
    tryCatchM
      (do
        let loginBtn ← qexists env selBOLoginBtn
        if loginBtn then do
          clickM env selBOLoginBtn
          randomDelayM 1500 2500
        waitForM env "#username" 5000
        typeM env "#username" (cfg.username.getD "")
        randomDelayM 1200 2500
        typeM env "#password" (cfg.password.getD "")
        randomDelayM 800 1800
        let hasRecaptcha ← qexists env selRecaptcha
        let early ← if hasRecaptcha then captchaWaitFrom env captchaPolls else pure none
        match early with
        | some r => pure r
        | none => do
          clickM env selBOKcLogin
          randomDelayM 2500 4000
          tryCatchM
            (do
              let gotIt ← qexists env "button:has-text(\"GOT IT\")"
              if gotIt then do
                clickM env "button:has-text(\"GOT IT\")"
                randomDelayM 400 800)
            (fun _ => pure ())
          saveSessionM env
          pure mkSuccess)
      (fun e => pure (mkFailure e))
  else pure (mkFailure noCredsMsg)

/-- PinnacleWorkflow.login: on a failed or faulted credential attempt the catch
swallows the error and the method falls back to the manual path super.login(),
which runs outside any try. -/
def PinnacleWorkflow.login (env : Env) (cfg : Config) : M (WorkflowResult Unit) := do
  let li ← PinnacleWorkflow.isLoggedIn env
  if li then pure mkSuccess
  else do
    let attempt ←
      if truthy cfg.username && truthy cfg.password then
        tryCatchM
          (do
            waitForM env "#loginId" 5000
            typeM env "#loginId" (cfg.username.getD "")
            randomDelayM 1200 2500
            typeM env "#pass" (cfg.password.getD "")
            randomDelayM 800 1800
            clickM env selPinSignIn
            randomDelayM 2500 4000
            let li2 ← PinnacleWorkflow.isLoggedIn env
            if li2 then do
              saveSessionM env
              pure (some mkSuccess)
            else pure none)
          (fun _ => pure none)
      else pure none
    match attempt with
    | some r => pure r
    | none => baseLoginM env

def notLoggedInMsg : String := "Not logged in. Call login() first."
def selNext411 : String := "#nextBtn a:not(.disabled)"

/-- The pagination loop of Sports411Workflow.getBetHistory. The source is an
unbounded while(hasNextPage) loop with no identical-record-set check; fuel
makes the partiality explicit: a none outcome means the loop was still running
after the given number of iterations. -/
def scrape411 (env : Env) : Nat → List Bet411 → M (Option (List Bet411))
  | 0, _ => pure none
  | fuel + 1, acc => do
    let bets ← extract411M env
    let acc2 := acc ++ bets
    let nextBtn ← qexists env selNext411
    if nextBtn then do
      clickM env selNext411
      sleepM 1500
      scrape411 env fuel acc2
    else pure (some acc2)

/-- Sports411Workflow.getBetHistory; fromStr and toStr are the already
formatted date strings the source derives from its Date parameters. The outer
Option is none exactly when the pagination loop outran the fuel. -/
def Sports411Workflow.getBetHistory (env : Env) (fromStr toStr : Option String) (fuel : Nat) :
    M (Option (WorkflowResult (List Bet411))) :=
  tryCatchM
    (do
      let li ← Sports411Workflow.isLoggedIn env
      if !li then pure (some (resultR false [] (some notLoggedInMsg)))
      else do
        clickM env "text=History"
        sleepM 2000
        if fromStr.isSome && toStr.isSome then do
          evalUnitM env "setDateRange"
          clickM env "button:has-text(\"Custom Range\")"
          sleepM 2000
        let r ← scrape411 env fuel []
        match r with
        | some allBets => pure (some (resultR true allBets none))
        | none => pure none)
    (fun e => pure (some (resultR false [] (some e))))

def scrollTag : String := "scrollToBottom"

/-- The bounded infinite-scroll loop of BetOnlineWorkflow.getBetHistory: for
each of the five rounds, scroll to the bottom and pause 800 ms. -/
def scrollsBO (env : Env) : Nat → M Unit
  | 0 => pure ()
  | n + 1 => do
    evalUnitM env scrollTag
    sleepM 800
    scrollsBO env n

/-- BetOnlineWorkflow.getBetHistory; the date parameters are unused in the
source. -/
def BetOnlineWorkflow.getBetHistory (env : Env) (_fromStr _toStr : Option String) :
    M (WorkflowResult (List BOBet)) :=
  tryCatchM
    (do
      let li ← BetOnlineWorkflow.isLoggedIn env
      if !li then pure (resultR false [] (some notLoggedInMsg))
      else do
        clickM env selBOBalance
        sleepM 1000
        clickM env "text=Bet History"
        sleepM 2000
        scrollsBO env 5
        let rows ← rowsBOM env
        pure (resultR true (rows.map mapBORow) none))
    (fun e => pure (resultR false [] (some e)))

/-- PinnacleWorkflow.getBetHistory: a placeholder that reports success with an
empty item list once authenticated. -/
def PinnacleWorkflow.getBetHistory (env : Env) (_d _ed : Option String) : M (WorkflowResult (List PinBet)) :=
  tryCatchM
    (do
      let li ← PinnacleWorkflow.isLoggedIn env
      if !li then pure (resultR false [] (some notLoggedInMsg))
      else pure (resultR true [] (some "Not implemented - need to discover history page")))
    (fun e => pure (resultR false [] (some e)))

/-- Fresh run state: call counter zero, empty trace. -/
def st0 : MSt := ⟨0, []⟩

/-- Credentials present. -/
def cfgUP : Config := ⟨some "user", some "pass"⟩

/-- Credentials absent. -/
def cfgNone : Config := ⟨none, none⟩

/-- A fault-free environment in which every existence probe reports absence:
no login form and no logged-in indicator on any call. -/
def baseEnv : Env where
  existsRes := fun _ _ => Except.ok false
  clickRes := fun _ _ => Except.ok ()
  typeRes := fun _ _ => Except.ok ()
  waitRes := fun _ _ => Except.ok ()
  urlRes := fun _ => "https://sports411.ag/"
  evalUnit := fun _ _ => Except.ok ()
  evalSolved := fun _ => Except.ok false
  rowsBO := fun _ => Except.ok []
  bets411 := fun _ => Except.ok []
  saveRes := fun _ => Except.ok ()
  baseLoginRes := fun _ => Except.ok (mkFailure "manual login required")

/-- Sports411 page showing the account login form. -/
def env411LoggedOut : Env :=
  { baseEnv with existsRes := fun _ sel => Except.ok (sel == sel411Form) }

/-- BetOnline page in the logged-in shape: no login controls, balance present. -/
def envBOLoggedIn : Env :=
  { baseEnv with existsRes := fun _ sel => Except.ok (sel == selBOBalance) }

/-- Pinnacle page in the logged-in shape: no login controls, account menu
present. -/
def envPinLoggedIn : Env :=
  { baseEnv with existsRes := fun _ sel => Except.ok (sel == selPinMenu) }

/-- Which actions only read the page (existence queries and the URL getter). -/
def readOnlyAct : Act → Bool
  | Act.qexists _ => true
  | Act.getUrl => true
  | _ => false

/-- The trace grew only by page-reading actions between the two states. -/
def noNewAuth (st st1 : MSt) : Prop :=
  ∃ l, st1.tr = st.tr ++ l ∧ ∀ a ∈ l, readOnlyAct a = true

theorem noNewAuth_trans {st st1 st2 : MSt} (h1 : noNewAuth st st1)
    (h2 : noNewAuth st1 st2) : noNewAuth st st2 := by
  obtain ⟨l1, e1, r1⟩ := h1
  obtain ⟨l2, e2, r2⟩ := h2
  refine ⟨l1 ++ l2, by rw [e2, e1, List.append_assoc], ?_⟩
  intro a ha
  rcases List.mem_append.1 ha with h | h
  · exact r1 a h
  · exact r2 a h

/-- Sports411Workflow.isLoggedIn only reads the page: every action it adds to
the trace is an existence query or the URL getter. -/
theorem isLoggedIn411_readonly (env : Env) (st : MSt) :
    noNewAuth st (Sports411Workflow.isLoggedIn env st).2 := by
  unfold noNewAuth Sports411Workflow.isLoggedIn qexists urlM
  simp only [M.bind_def, M.bind, M.pure_def, M.pure]
  rcases h1 : env.existsRes st.ctr sel411Form with e1 | b1 <;> simp only [h1]
  · exact ⟨[Act.qexists sel411Form], rfl, by simp [readOnlyAct]⟩
  · rcases h2 : env.existsRes (st.ctr + 1) sel411Btn with e2 | b2 <;> simp only [h2]
    · exact ⟨[Act.qexists sel411Form, Act.qexists sel411Btn],
        by simp only [List.append_assoc, List.singleton_append]; try exact rfl,
        by simp [readOnlyAct]⟩
    · cases hb : b1 || b2 <;> simp only [hb, Bool.false_eq_true, if_false, if_true, reduceIte]
      · simp only [M.bind, M.pure_eval]
        split <;>
          exact ⟨[Act.qexists sel411Form, Act.qexists sel411Btn, Act.getUrl],
            by simp only [List.append_assoc, List.singleton_append]; try exact rfl,
            by simp [readOnlyAct]⟩
      · exact ⟨[Act.qexists sel411Form, Act.qexists sel411Btn],
          by simp only [List.append_assoc, List.singleton_append]; try exact rfl,
          by simp [readOnlyAct]⟩

/-- BetOnlineWorkflow.isLoggedIn only reads the page. -/
theorem isLoggedInBO_readonly (env : Env) (st : MSt) :
    noNewAuth st (BetOnlineWorkflow.isLoggedIn env st).2 := by
  unfold noNewAuth BetOnlineWorkflow.isLoggedIn qexists
  simp only [M.bind_def, M.bind, M.pure_eval]
  rcases h1 : env.existsRes st.ctr selBOLoginBtn with e1 | b1 <;> simp only [h1]
  · exact ⟨[Act.qexists selBOLoginBtn], rfl, by simp [readOnlyAct]⟩
  · rcases h2 : env.existsRes (st.ctr + 1) selBOKcLogin with e2 | b2 <;> simp only [h2]
    · exact ⟨[Act.qexists selBOLoginBtn, Act.qexists selBOKcLogin],
        by simp only [List.append_assoc, List.singleton_append]; try exact rfl,
        by simp [readOnlyAct]⟩
    · cases hb : b1 || b2 <;> simp only [hb, Bool.false_eq_true, if_false, if_true, reduceIte]
      · exact ⟨[Act.qexists selBOLoginBtn, Act.qexists selBOKcLogin, Act.qexists selBOBalance],
          by simp only [List.append_assoc, List.singleton_append]; try exact rfl,
          by simp [readOnlyAct]⟩
      · exact ⟨[Act.qexists selBOLoginBtn, Act.qexists selBOKcLogin],
          by simp only [List.append_assoc, List.singleton_append]; try exact rfl,
          by simp [readOnlyAct]⟩

/-- PinnacleWorkflow.isLoggedIn only reads the page. -/
theorem isLoggedInPin_readonly (env : Env) (st : MSt) :
    noNewAuth st (PinnacleWorkflow.isLoggedIn env st).2 := by
  unfold noNewAuth PinnacleWorkflow.isLoggedIn qexists
  simp only [M.bind_def, M.bind, M.pure_eval]
  rcases h1 : env.existsRes st.ctr selPinSignIn with e1 | b1 <;> simp only [h1]
  · exact ⟨[Act.qexists selPinSignIn], rfl, by simp [readOnlyAct]⟩
  · rcases h2 : env.existsRes (st.ctr + 1) selPinUser with e2 | b2 <;> simp only [h2]
    · exact ⟨[Act.qexists selPinSignIn, Act.qexists selPinUser],
        by simp only [List.append_assoc, List.singleton_append]; try exact rfl,
        by simp [readOnlyAct]⟩
    · rcases h3 : env.existsRes (st.ctr + 1 + 1) selPinPass with e3 | b3 <;> simp only [h3]
      · exact ⟨[Act.qexists selPinSignIn, Act.qexists selPinUser, Act.qexists selPinPass],
          by simp only [List.append_assoc, List.singleton_append]; try exact rfl,
          by simp [readOnlyAct]⟩
      · cases hb : b1 || b2 || b3 <;>
          simp only [hb, Bool.false_eq_true, if_false, if_true, reduceIte]
        · simp only [M.bind, M.pure_eval]
          rcases h4 : env.existsRes (st.ctr + 1 + 1 + 1) selPinMenu with e4 | b4 <;>
            try simp only [h4]
          · exact ⟨[Act.qexists selPinSignIn, Act.qexists selPinUser, Act.qexists selPinPass,
              Act.qexists selPinMenu],
              by simp only [List.append_assoc, List.singleton_append]; try exact rfl,
              by simp [readOnlyAct]⟩
          · rcases h5 : env.existsRes (st.ctr + 1 + 1 + 1 + 1) selPinLogout with e5 | b5 <;>
              try simp only [h5]
            · exact ⟨[Act.qexists selPinSignIn, Act.qexists selPinUser, Act.qexists selPinPass,
                Act.qexists selPinMenu, Act.qexists selPinLogout],
                by simp only [List.append_assoc, List.singleton_append]; try exact rfl,
                by simp [readOnlyAct]⟩
            · exact ⟨[Act.qexists selPinSignIn, Act.qexists selPinUser, Act.qexists selPinPass,
                Act.qexists selPinMenu, Act.qexists selPinLogout],
                by simp only [List.append_assoc, List.singleton_append]; try exact rfl,
                by simp [readOnlyAct]⟩
        · exact ⟨[Act.qexists selPinSignIn, Act.qexists selPinUser, Act.qexists selPinPass],
            by simp only [List.append_assoc, List.singleton_append]; try exact rfl,
            by simp [readOnlyAct]⟩

/-- A try/catch whose handler only wraps the message into a pure value always
returns normally, whatever the body does. -/
theorem tryCatchM_total {α : Type} (m : M α) (g : String → α) (st : MSt) :
    ∃ a st1, tryCatchM m (fun e => pure (g e)) st = (Except.ok a, st1) := by
  unfold tryCatchM
  rcases hm : m st with ⟨r, st1⟩
  rcases r with e | a <;> simp only [hm]
  · exact ⟨g e, st1, rfl⟩
  · exact ⟨a, st1, rfl⟩

/-- A trace of page-reading actions contains no page.evaluate action. -/
theorem count_zero_of_readonly (l : List Act) (h : ∀ a ∈ l, readOnlyAct a = true)
    (t : String) : l.count (Act.evalJs t) = 0 := by
  rw [List.count_eq_zero]
  intro hm
  have hro := h _ hm
  simp [readOnlyAct] at hro

/-- C10: Sports411Workflow.isLoggedIn returns true whenever neither the
account-login form selectors nor the LOG IN button selectors match, regardless
of the page URL (left unconstrained here): both post-check branches of the
method return true, so an ambiguous page with no login-form signals always
resolves to logged-in. -/
theorem c10_ambiguous_page_logged_in (env : Env) (st : MSt)
    (h1 : env.existsRes st.ctr sel411Form = Except.ok false)
    (h2 : env.existsRes (st.ctr + 1) sel411Btn = Except.ok false) :
    Sports411Workflow.isLoggedIn env st
      = (Except.ok true,
         ⟨st.ctr + 3,
          st.tr ++ [Act.qexists sel411Form, Act.qexists sel411Btn, Act.getUrl]⟩) := by
  have h3 : st.ctr + 3 = st.ctr + 1 + 1 + 1 := by omega
  unfold Sports411Workflow.isLoggedIn qexists urlM
  simp only [M.bind_def, M.bind, M.pure_eval, h1, h2, Bool.or_self, Bool.false_eq_true,
    if_false, reduceIte, h3]
  split <;> simp only [List.append_assoc, List.singleton_append] <;> try exact rfl

/-- Witness for C10 at a concrete environment. -/
theorem c10_witness :
    Sports411Workflow.isLoggedIn baseEnv st0
      = (Except.ok true,
         ⟨3, [Act.qexists sel411Form, Act.qexists sel411Btn, Act.getUrl]⟩) :=
  c10_ambiguous_page_logged_in baseEnv st0 rfl rfl

/-- C4: for every site workflow, getBetHistory called while isLoggedIn reports
false returns normally (no exception) with a failure WorkflowResult whose
payload is the empty record list — never partial data. -/
theorem c4_history_requires_login (env1 env2 env3 : Env) (st1 st2 st3 : MSt)
    (d1 d2 : Option String) (fuel : Nat)
    (h1 : Sports411Workflow.isLoggedIn env1 st0 = (Except.ok false, st1))
    (h2 : BetOnlineWorkflow.isLoggedIn env2 st0 = (Except.ok false, st2))
    (h3 : PinnacleWorkflow.isLoggedIn env3 st0 = (Except.ok false, st3)) :
    Sports411Workflow.getBetHistory env1 d1 d2 fuel st0
        = (Except.ok (some (resultR false [] (some notLoggedInMsg))), st1) ∧
    BetOnlineWorkflow.getBetHistory env2 d1 d2 st0 = (Except.ok (resultR false [] (some notLoggedInMsg)), st2) ∧
    PinnacleWorkflow.getBetHistory env3 d1 d2 st0 = (Except.ok (resultR false [] (some notLoggedInMsg)), st3) := by
  refine ⟨?_, ?_, ?_⟩
  · unfold Sports411Workflow.getBetHistory tryCatchM
    simp only [M.bind_eval, h1, Bool.not_false, if_true, reduceIte, M.pure_eval]
    try exact rfl
  · unfold BetOnlineWorkflow.getBetHistory tryCatchM
    simp only [M.bind_eval, h2, Bool.not_false, if_true, reduceIte, M.pure_eval]
    try exact rfl
  · unfold PinnacleWorkflow.getBetHistory tryCatchM
    simp only [M.bind_eval, h3, Bool.not_false, if_true, reduceIte, M.pure_eval]
    try exact rfl

/-- Witness for C4 at concrete logged-out environments. -/
theorem c4_witness :
    Sports411Workflow.getBetHistory env411LoggedOut none none 7 st0
        = (Except.ok (some (resultR false [] (some notLoggedInMsg))),
           ⟨2, [Act.qexists sel411Form, Act.qexists sel411Btn]⟩) ∧
    BetOnlineWorkflow.getBetHistory baseEnv none none st0
        = (Except.ok (resultR false [] (some notLoggedInMsg)),
           ⟨3, [Act.qexists selBOLoginBtn, Act.qexists selBOKcLogin,
                Act.qexists selBOBalance]⟩) ∧
    PinnacleWorkflow.getBetHistory baseEnv none none st0
        = (Except.ok (resultR false [] (some notLoggedInMsg)),
           ⟨5, [Act.qexists selPinSignIn, Act.qexists selPinUser, Act.qexists selPinPass,
                Act.qexists selPinMenu, Act.qexists selPinLogout]⟩) :=
  c4_history_requires_login env411LoggedOut baseEnv baseEnv
    ⟨2, [Act.qexists sel411Form, Act.qexists sel411Btn]⟩
    ⟨3, [Act.qexists selBOLoginBtn, Act.qexists selBOKcLogin, Act.qexists selBOBalance]⟩
    ⟨5, [Act.qexists selPinSignIn, Act.qexists selPinUser, Act.qexists selPinPass,
         Act.qexists selPinMenu, Act.qexists selPinLogout]⟩
    none none 7 (by decide) (by decide) (by decide)

/-- C7: Sports411 and BetOnline, the two workflows with no external manual
completion path, when not logged in and with no configured credentials, return
the fixed failure message deterministically; both logins are total functions of
the environment, so they cannot hang. PinnacleWorkflow is excluded by the
claim's own hypothesis: it falls back to the manual super.login() path. -/
theorem c7_no_credentials_failure (env1 env2 : Env) (st1 st2 : MSt)
    (h1 : Sports411Workflow.isLoggedIn env1 st0 = (Except.ok false, st1))
    (h2 : BetOnlineWorkflow.isLoggedIn env2 st0 = (Except.ok false, st2)) :
    Sports411Workflow.login env1 cfgNone st0 = (Except.ok (mkFailure noCredsMsg), st1) ∧
    BetOnlineWorkflow.login env2 cfgNone st0 = (Except.ok (mkFailure noCredsMsg), st2) := by
  constructor
  · unfold Sports411Workflow.login
    simp only [M.bind_eval, h1, Bool.false_eq_true, if_false, reduceIte, cfgNone, truthy,
      Bool.and_self, M.pure_eval]
    try exact rfl
  · unfold BetOnlineWorkflow.login
    simp only [M.bind_eval, h2, Bool.false_eq_true, if_false, reduceIte, cfgNone, truthy,
      Bool.and_self, M.pure_eval]
    try exact rfl

/-- Witness for C7 at concrete logged-out environments. -/
theorem c7_witness :
    Sports411Workflow.login env411LoggedOut cfgNone st0
        = (Except.ok (mkFailure noCredsMsg),
           ⟨2, [Act.qexists sel411Form, Act.qexists sel411Btn]⟩) ∧
    BetOnlineWorkflow.login baseEnv cfgNone st0
        = (Except.ok (mkFailure noCredsMsg),
           ⟨3, [Act.qexists selBOLoginBtn, Act.qexists selBOKcLogin,
                Act.qexists selBOBalance]⟩) :=
  c7_no_credentials_failure env411LoggedOut baseEnv
    ⟨2, [Act.qexists sel411Form, Act.qexists sel411Btn]⟩
    ⟨3, [Act.qexists selBOLoginBtn, Act.qexists selBOKcLogin, Act.qexists selBOBalance]⟩
    (by decide) (by decide)

/-- C3: for every site workflow, when the isLoggedIn probe reports true, login
returns the success result immediately and its final state is exactly the
probe's post-state: no click, no field entry, no wait, no credential
submission, no session save — the trace grows only by page-reading actions.
Consequently two login calls in immediate succession, with the probe still
reporting true after the first, also perform no authentication action at all,
so at most one authentication attempt can ever happen across the pair. -/
theorem c3_login_idempotent_when_logged_in
    (env1 env2 env3 : Env) (cfg1 cfg2 cfg3 : Config) (st1 st1' st2 st2' st3 st3' : MSt)
    (h1 : Sports411Workflow.isLoggedIn env1 st0 = (Except.ok true, st1))
    (h1b : Sports411Workflow.isLoggedIn env1 st1 = (Except.ok true, st1'))
    (h2 : BetOnlineWorkflow.isLoggedIn env2 st0 = (Except.ok true, st2))
    (h2b : BetOnlineWorkflow.isLoggedIn env2 st2 = (Except.ok true, st2'))
    (h3 : PinnacleWorkflow.isLoggedIn env3 st0 = (Except.ok true, st3))
    (h3b : PinnacleWorkflow.isLoggedIn env3 st3 = (Except.ok true, st3')) :
    (Sports411Workflow.login env1 cfg1 st0 = (Except.ok mkSuccess, st1) ∧ noNewAuth st0 st1 ∧
      (Sports411Workflow.login env1 cfg1 >>= fun _ => Sports411Workflow.login env1 cfg1) st0
        = (Except.ok mkSuccess, st1') ∧ noNewAuth st0 st1') ∧
    (BetOnlineWorkflow.login env2 cfg2 st0 = (Except.ok mkSuccess, st2) ∧ noNewAuth st0 st2 ∧
      (BetOnlineWorkflow.login env2 cfg2 >>= fun _ => BetOnlineWorkflow.login env2 cfg2) st0
        = (Except.ok mkSuccess, st2') ∧ noNewAuth st0 st2') ∧
    (PinnacleWorkflow.login env3 cfg3 st0 = (Except.ok mkSuccess, st3) ∧ noNewAuth st0 st3 ∧
      (PinnacleWorkflow.login env3 cfg3 >>= fun _ => PinnacleWorkflow.login env3 cfg3) st0
        = (Except.ok mkSuccess, st3') ∧ noNewAuth st0 st3') := by
  have n1 : noNewAuth st0 st1 := by
    have hr := isLoggedIn411_readonly env1 st0; rw [h1] at hr; exact hr
  have n1b : noNewAuth st1 st1' := by
    have hr := isLoggedIn411_readonly env1 st1; rw [h1b] at hr; exact hr
  have n2 : noNewAuth st0 st2 := by
    have hr := isLoggedInBO_readonly env2 st0; rw [h2] at hr; exact hr
  have n2b : noNewAuth st2 st2' := by
    have hr := isLoggedInBO_readonly env2 st2; rw [h2b] at hr; exact hr
  have n3 : noNewAuth st0 st3 := by
    have hr := isLoggedInPin_readonly env3 st0; rw [h3] at hr; exact hr
  have n3b : noNewAuth st3 st3' := by
    have hr := isLoggedInPin_readonly env3 st3; rw [h3b] at hr; exact hr
  have e1 : Sports411Workflow.login env1 cfg1 st0 = (Except.ok mkSuccess, st1) := by
    unfold Sports411Workflow.login
    simp only [M.bind_eval, h1, if_true, reduceIte, M.pure_eval]
    try exact rfl
  have e1b : Sports411Workflow.login env1 cfg1 st1 = (Except.ok mkSuccess, st1') := by
    unfold Sports411Workflow.login
    simp only [M.bind_eval, h1b, if_true, reduceIte, M.pure_eval]
    try exact rfl
  have e2 : BetOnlineWorkflow.login env2 cfg2 st0 = (Except.ok mkSuccess, st2) := by
    unfold BetOnlineWorkflow.login
    simp only [M.bind_eval, h2, if_true, reduceIte, M.pure_eval]
    try exact rfl
  have e2b : BetOnlineWorkflow.login env2 cfg2 st2 = (Except.ok mkSuccess, st2') := by
    unfold BetOnlineWorkflow.login
    simp only [M.bind_eval, h2b, if_true, reduceIte, M.pure_eval]
    try exact rfl
  have e3 : PinnacleWorkflow.login env3 cfg3 st0 = (Except.ok mkSuccess, st3) := by
    unfold PinnacleWorkflow.login
    simp only [M.bind_eval, h3, if_true, reduceIte, M.pure_eval]
    try exact rfl
  have e3b : PinnacleWorkflow.login env3 cfg3 st3 = (Except.ok mkSuccess, st3') := by
    unfold PinnacleWorkflow.login
    simp only [M.bind_eval, h3b, if_true, reduceIte, M.pure_eval]
    try exact rfl
  refine ⟨⟨e1, n1, ?_, noNewAuth_trans n1 n1b⟩,
          ⟨e2, n2, ?_, noNewAuth_trans n2 n2b⟩,
          ⟨e3, n3, ?_, noNewAuth_trans n3 n3b⟩⟩
  · simp only [M.bind_eval, e1, e1b]
  · simp only [M.bind_eval, e2, e2b]
  · simp only [M.bind_eval, e3, e3b]

/-- Witness for C3 at concrete logged-in environments (with credentials
configured, showing they are still not used). -/
theorem c3_witness :
    Sports411Workflow.login baseEnv cfgUP st0
      = (Except.ok mkSuccess,
         ⟨3, [Act.qexists sel411Form, Act.qexists sel411Btn, Act.getUrl]⟩) ∧
    BetOnlineWorkflow.login envBOLoggedIn cfgUP st0
      = (Except.ok mkSuccess,
         ⟨3, [Act.qexists selBOLoginBtn, Act.qexists selBOKcLogin,
              Act.qexists selBOBalance]⟩) ∧
    PinnacleWorkflow.login envPinLoggedIn cfgUP st0
      = (Except.ok mkSuccess,
         ⟨5, [Act.qexists selPinSignIn, Act.qexists selPinUser, Act.qexists selPinPass,
              Act.qexists selPinMenu, Act.qexists selPinLogout]⟩) := by
  have h := c3_login_idempotent_when_logged_in baseEnv envBOLoggedIn envPinLoggedIn
    cfgUP cfgUP cfgUP
    ⟨3, [Act.qexists sel411Form, Act.qexists sel411Btn, Act.getUrl]⟩
    ⟨6, [Act.qexists sel411Form, Act.qexists sel411Btn, Act.getUrl,
         Act.qexists sel411Form, Act.qexists sel411Btn, Act.getUrl]⟩
    ⟨3, [Act.qexists selBOLoginBtn, Act.qexists selBOKcLogin, Act.qexists selBOBalance]⟩
    ⟨6, [Act.qexists selBOLoginBtn, Act.qexists selBOKcLogin, Act.qexists selBOBalance,
         Act.qexists selBOLoginBtn, Act.qexists selBOKcLogin, Act.qexists selBOBalance]⟩
    ⟨5, [Act.qexists selPinSignIn, Act.qexists selPinUser, Act.qexists selPinPass,
         Act.qexists selPinMenu, Act.qexists selPinLogout]⟩
    ⟨10, [Act.qexists selPinSignIn, Act.qexists selPinUser, Act.qexists selPinPass,
          Act.qexists selPinMenu, Act.qexists selPinLogout,
          Act.qexists selPinSignIn, Act.qexists selPinUser, Act.qexists selPinPass,
          Act.qexists selPinMenu, Act.qexists selPinLogout]⟩
    (by decide) (by decide) (by decide) (by decide) (by decide) (by decide)
  exact ⟨h.1.1, h.2.1.1, h.2.2.1⟩

/-- The actions BetOnlineWorkflow.getBetHistory performs after a positive
logged-in probe: two navigation clicks with pauses, five scroll rounds each
followed by the 800 ms settle pause, then a single extraction. -/
def boHistTrace : List Act :=
  [Act.click selBOBalance, Act.sleep 1000, Act.click "text=Bet History", Act.sleep 2000,
   Act.evalJs scrollTag, Act.sleep 800, Act.evalJs scrollTag, Act.sleep 800,
   Act.evalJs scrollTag, Act.sleep 800, Act.evalJs scrollTag, Act.sleep 800,
   Act.evalJs scrollTag, Act.sleep 800, Act.evalJs "extractBO"]

/-- C9: BetOnline infinite-scroll extraction performs exactly five scroll
attempts, each followed by the fixed settle pause, extracts the accumulated DOM
exactly once, and returns a success result — the scroll count is a constant of
the code, independent of whether the site keeps lazy-loading content (the
environment rows are arbitrary). -/
theorem c9_bounded_infinite_scroll (env : Env) (st2 : MSt) (rows : List RowBO)
    (hLI : BetOnlineWorkflow.isLoggedIn env st0 = (Except.ok true, st2))
    (hC1 : env.clickRes st2.ctr selBOBalance = Except.ok ())
    (hC2 : env.clickRes (st2.ctr + 1) "text=Bet History" = Except.ok ())
    (hS0 : env.evalUnit (st2.ctr + 2) scrollTag = Except.ok ())
    (hS1 : env.evalUnit (st2.ctr + 3) scrollTag = Except.ok ())
    (hS2 : env.evalUnit (st2.ctr + 4) scrollTag = Except.ok ())
    (hS3 : env.evalUnit (st2.ctr + 5) scrollTag = Except.ok ())
    (hS4 : env.evalUnit (st2.ctr + 6) scrollTag = Except.ok ())
    (hR : env.rowsBO (st2.ctr + 7) = Except.ok rows) :
    BetOnlineWorkflow.getBetHistory env none none st0
        = (Except.ok (resultR true (rows.map mapBORow) none),
           ⟨st2.ctr + 8, st2.tr ++ boHistTrace⟩) ∧
    (st2.tr ++ boHistTrace).count (Act.evalJs scrollTag) = 5 ∧
    (st2.tr ++ boHistTrace).count (Act.evalJs "extractBO") = 1 := by
  have hro := isLoggedInBO_readonly env st0
  rw [hLI] at hro
  obtain ⟨l, hl, hrol⟩ := hro
  have e2 : st2.ctr + 1 + 1 = st2.ctr + 2 := by omega
  have e3 : st2.ctr + 1 + 1 + 1 = st2.ctr + 3 := by omega
  have e4 : st2.ctr + 1 + 1 + 1 + 1 = st2.ctr + 4 := by omega
  have e5 : st2.ctr + 1 + 1 + 1 + 1 + 1 = st2.ctr + 5 := by omega
  have e6 : st2.ctr + 1 + 1 + 1 + 1 + 1 + 1 = st2.ctr + 6 := by omega
  have e7 : st2.ctr + 1 + 1 + 1 + 1 + 1 + 1 + 1 = st2.ctr + 7 := by omega
  have e8 : st2.ctr + 1 + 1 + 1 + 1 + 1 + 1 + 1 + 1 = st2.ctr + 8 := by omega
  refine ⟨?_, ?_, ?_⟩
  · unfold BetOnlineWorkflow.getBetHistory tryCatchM
    simp only [scrollsBO, clickM, sleepM, evalUnitM, rowsBOM, boHistTrace, M.bind_eval,
      hLI, Bool.not_true, Bool.false_eq_true, if_false, reduceIte, M.pure_eval,
      M.purePure_eval, e2, e3, e4, e5, e6, e7, e8, hC1, hC2, hS0, hS1, hS2, hS3, hS4, hR,
      List.append_assoc, List.singleton_append, List.cons_append, List.nil_append]
    try exact rfl
  · have hzl : l.count (Act.evalJs scrollTag) = 0 := count_zero_of_readonly l hrol scrollTag
    have hst2 : st2.tr = l := by simpa [st0] using hl
    rw [List.count_append, hst2, hzl]
    decide
  · have hzl : l.count (Act.evalJs "extractBO") = 0 := count_zero_of_readonly l hrol "extractBO"
    have hst2 : st2.tr = l := by simpa [st0] using hl
    rw [List.count_append, hst2, hzl]
    decide

/-- A BetOnline history row whose amount column reads as a won bet. -/
def rowWon : RowBO :=
  ⟨[some " 123-456 ", some "Jan 5", some "Lakers ML", some "straight",
    some "Moneyline", some "Won $50.00", some "$95.00"]⟩

/-- BetOnline page in the logged-in shape whose history table holds one row. -/
def envBOHist : Env :=
  { baseEnv with
    existsRes := fun _ sel => Except.ok (sel == selBOBalance)
    rowsBO := fun _ => Except.ok [rowWon] }

/-- Witness for C9 at a concrete environment with one extracted row. -/
theorem c9_witness :
    BetOnlineWorkflow.getBetHistory envBOHist none none st0
        = (Except.ok (resultR true ([rowWon].map mapBORow) none),
           ⟨11, [Act.qexists selBOLoginBtn, Act.qexists selBOKcLogin,
                 Act.qexists selBOBalance] ++ boHistTrace⟩) ∧
    (([Act.qexists selBOLoginBtn, Act.qexists selBOKcLogin,
       Act.qexists selBOBalance] : List Act) ++ boHistTrace).count
        (Act.evalJs scrollTag) = 5 ∧
    (([Act.qexists selBOLoginBtn, Act.qexists selBOKcLogin,
       Act.qexists selBOBalance] : List Act) ++ boHistTrace).count
        (Act.evalJs "extractBO") = 1 :=
  c9_bounded_infinite_scroll envBOHist
    ⟨3, [Act.qexists selBOLoginBtn, Act.qexists selBOKcLogin, Act.qexists selBOBalance]⟩
    [rowWon] (by decide) (by decide) (by decide) (by decide) (by decide) (by decide)
    (by decide) (by decide) (by decide)

/-- A BetOnline history row whose amount column reads as a cancelled bet. -/
def rowCancel : RowBO :=
  ⟨[some " 77-1 ", some "Feb 2", some "Celtics +3", some "straight",
    some "Spread", some "Cancel $10.00", some "$20.00"]⟩

/-- BetOnline page in the logged-in shape whose history table holds one
cancelled row. -/
def envBOCancel : Env :=
  { envBOHist with rowsBO := fun _ => Except.ok [rowCancel] }

/-- Counterexample to C6: BetOnline history extraction produces an item with
status "Cancelled", which is not in the claimed set
pending, won, lost, void, cashout — so not every extracted BetHistoryItem
carries a status from that set (the produced values are also capitalized). -/
theorem c6_counterexample :
    (BetOnlineWorkflow.getBetHistory envBOCancel none none st0).1
        = Except.ok (resultR true [mapBORow rowCancel] none) ∧
    (mapBORow rowCancel).status = "Cancelled" ∧
    "Cancelled" ∉ (["pending", "won", "lost", "void", "cashout"] : List String) := by
  decide

/-- C6 amended: every item produced by the BetOnline extraction carries a
status from the set Won, Lost, Cancelled, Pending; the lowercase five-value
set of the claim is only the declared item type of the Pinnacle workflow,
whose extraction is an unimplemented placeholder returning no items. -/
theorem c6_amended_status_set :
    (∀ r : RowBO,
      (mapBORow r).status ∈ (["Won", "Lost", "Cancelled", "Pending"] : List String)) ∧
    (∀ pb : PinBet,
      pb.status ∈ [PinStatus.pending, PinStatus.won, PinStatus.lost, PinStatus.void,
        PinStatus.cashout]) := by
  constructor
  · intro r
    simp only [mapBORow]
    split
    · simp
    · split
      · simp
      · split <;> simp
  · intro pb
    cases pb.status <;> simp

/-- The actions of one full wait-loop iteration in which the challenge is
unsolved and the page still logged out: the solved poll, the three logged-in
probes, and the 2000 ms sleep. -/
def waitIterTrace : List Act :=
  [Act.evalJs "captchaSolved", Act.qexists selBOLoginBtn, Act.qexists selBOKcLogin,
   Act.qexists selBOBalance, Act.sleep 2000]

/-- The actions of n such iterations. -/
def waitTrace : Nat → List Act
  | 0 => []
  | n + 1 => waitIterTrace ++ waitTrace n

/-- One unsolved, not-logged-in iteration of the CAPTCHA wait advances the call
counter by four and appends exactly one iteration's actions. -/
theorem captchaWait_step (env : Env) (n : Nat) (st : MSt)
    (hs : env.evalSolved st.ctr = Except.ok false)
    (h1 : env.existsRes (st.ctr + 1) selBOLoginBtn = Except.ok false)
    (h2 : env.existsRes (st.ctr + 2) selBOKcLogin = Except.ok false)
    (h3 : env.existsRes (st.ctr + 3) selBOBalance = Except.ok false) :
    captchaWaitFrom env (n + 1) st
      = captchaWaitFrom env n ⟨st.ctr + 4, st.tr ++ waitIterTrace⟩ := by
  have e2 : st.ctr + 1 + 1 = st.ctr + 2 := by omega
  have e3 : st.ctr + 1 + 1 + 1 = st.ctr + 3 := by omega
  have e4 : st.ctr + 1 + 1 + 1 + 1 = st.ctr + 4 := by omega
  simp only [captchaWaitFrom, BetOnlineWorkflow.isLoggedIn, evalSolvedM, qexists, sleepM, M.bind_eval,
    M.pure_eval, M.purePure_eval, hs, h1, h2, h3, e2, e3, e4, Bool.or_self,
    Bool.false_eq_true, if_false, reduceIte, waitIterTrace,
    List.append_assoc, List.singleton_append, List.cons_append, List.nil_append]

/-- A poll that reports the challenge solved exits the wait loop by break. -/
theorem captchaWait_solvedNow (env : Env) (n : Nat) (st : MSt)
    (hs : env.evalSolved st.ctr = Except.ok true) :
    captchaWaitFrom env (n + 1) st
      = (Except.ok none, ⟨st.ctr + 1, st.tr ++ [Act.evalJs "captchaSolved"]⟩) := by
  simp only [captchaWaitFrom, evalSolvedM, M.bind_eval, M.pure_eval, M.purePure_eval, hs,
    if_true, reduceIte]
  try exact rfl

/-- Running the CAPTCHA wait for its whole poll budget with the challenge never
solved and the page never logged in: the loop exits by timeout with outcome
none, having performed exactly n full iterations. -/
theorem captchaWait_timeout (env : Env) (n : Nat) : ∀ (st : MSt),
    (∀ j, j < n → env.evalSolved (st.ctr + 4 * j) = Except.ok false) →
    (∀ j, j < n → env.existsRes (st.ctr + 4 * j + 1) selBOLoginBtn = Except.ok false) →
    (∀ j, j < n → env.existsRes (st.ctr + 4 * j + 2) selBOKcLogin = Except.ok false) →
    (∀ j, j < n → env.existsRes (st.ctr + 4 * j + 3) selBOBalance = Except.ok false) →
    captchaWaitFrom env n st = (Except.ok none, ⟨st.ctr + 4 * n, st.tr ++ waitTrace n⟩) := by
  induction n with
  | zero =>
    intro st _ _ _ _
    simp only [captchaWaitFrom, waitTrace, M.pure_eval, Nat.mul_zero, Nat.add_zero,
      List.append_nil]
    try exact rfl
  | succ n ih =>
    intro st hs h1 h2 h3
    have hs0 := hs 0 (by omega)
    have h10 := h1 0 (by omega)
    have h20 := h2 0 (by omega)
    have h30 := h3 0 (by omega)
    simp only [Nat.mul_zero, Nat.add_zero] at hs0 h10 h20 h30
    rw [captchaWait_step env n st hs0 h10 h20 h30]
    rw [ih ⟨st.ctr + 4, st.tr ++ waitIterTrace⟩
      (fun j hj => by
        have hh := hs (j + 1) (by omega)
        have e : st.ctr + 4 * (j + 1) = st.ctr + 4 + 4 * j := by ring
        rw [e] at hh
        exact hh)
      (fun j hj => by
        have hh := h1 (j + 1) (by omega)
        have e : st.ctr + 4 * (j + 1) + 1 = st.ctr + 4 + 4 * j + 1 := by ring
        rw [e] at hh
        exact hh)
      (fun j hj => by
        have hh := h2 (j + 1) (by omega)
        have e : st.ctr + 4 * (j + 1) + 2 = st.ctr + 4 + 4 * j + 2 := by ring
        rw [e] at hh
        exact hh)
      (fun j hj => by
        have hh := h3 (j + 1) (by omega)
        have e : st.ctr + 4 * (j + 1) + 3 = st.ctr + 4 + 4 * j + 3 := by ring
        rw [e] at hh
        exact hh)]
    have ec : st.ctr + 4 + 4 * n = st.ctr + 4 * (n + 1) := by ring
    rw [ec]
    simp only [waitTrace, List.append_assoc]

/-- Running the CAPTCHA wait when the challenge first reports solved at poll k,
with the page never logged in before: the loop exits by break after k full
iterations plus the final poll. -/
theorem captchaWait_solved_at (env : Env) (k : Nat) : ∀ (n : Nat) (st : MSt), k < n →
    (∀ j, j < k → env.evalSolved (st.ctr + 4 * j) = Except.ok false) →
    (∀ j, j < k → env.existsRes (st.ctr + 4 * j + 1) selBOLoginBtn = Except.ok false) →
    (∀ j, j < k → env.existsRes (st.ctr + 4 * j + 2) selBOKcLogin = Except.ok false) →
    (∀ j, j < k → env.existsRes (st.ctr + 4 * j + 3) selBOBalance = Except.ok false) →
    env.evalSolved (st.ctr + 4 * k) = Except.ok true →
    captchaWaitFrom env n st
      = (Except.ok none,
         ⟨st.ctr + 4 * k + 1, st.tr ++ waitTrace k ++ [Act.evalJs "captchaSolved"]⟩) := by
  induction k with
  | zero =>
    intro n st hkn _ _ _ _ hsolved
    obtain ⟨m, rfl⟩ : ∃ m, n = m + 1 := ⟨n - 1, by omega⟩
    simp only [Nat.mul_zero, Nat.add_zero] at hsolved
    rw [captchaWait_solvedNow env m st hsolved]
    simp [waitTrace]
  | succ k ih =>
    intro n st hkn hs h1 h2 h3 hsolved
    obtain ⟨m, rfl⟩ : ∃ m, n = m + 1 := ⟨n - 1, by omega⟩
    have hs0 := hs 0 (by omega)
    have h10 := h1 0 (by omega)
    have h20 := h2 0 (by omega)
    have h30 := h3 0 (by omega)
    simp only [Nat.mul_zero, Nat.add_zero] at hs0 h10 h20 h30
    rw [captchaWait_step env m st hs0 h10 h20 h30]
    rw [ih m ⟨st.ctr + 4, st.tr ++ waitIterTrace⟩ (by omega)
      (fun j hj => by
        have hh := hs (j + 1) (by omega)
        have e : st.ctr + 4 * (j + 1) = st.ctr + 4 + 4 * j := by ring
        rw [e] at hh
        exact hh)
      (fun j hj => by
        have hh := h1 (j + 1) (by omega)
        have e : st.ctr + 4 * (j + 1) + 1 = st.ctr + 4 + 4 * j + 1 := by ring
        rw [e] at hh
        exact hh)
      (fun j hj => by
        have hh := h2 (j + 1) (by omega)
        have e : st.ctr + 4 * (j + 1) + 2 = st.ctr + 4 + 4 * j + 2 := by ring
        rw [e] at hh
        exact hh)
      (fun j hj => by
        have hh := h3 (j + 1) (by omega)
        have e : st.ctr + 4 * (j + 1) + 3 = st.ctr + 4 + 4 * j + 3 := by ring
        rw [e] at hh
        exact hh)
      (by
        have e : st.ctr + 4 * (k + 1) = st.ctr + 4 + 4 * k := by ring
        rw [e] at hsolved
        exact hsolved)]
    have ec : st.ctr + 4 + 4 * k + 1 = st.ctr + 4 * (k + 1) + 1 := by ring
    rw [ec]
    simp only [waitTrace, List.append_assoc]

/-- The actions BetOnlineWorkflow.login performs before the CAPTCHA wait loop
on a logged-out page with credentials, no openable LOGIN button, and a
reCAPTCHA indicator present. -/
def boLoginPrefixTrace : List Act :=
  [Act.qexists selBOLoginBtn, Act.qexists selBOKcLogin, Act.qexists selBOBalance,
   Act.qexists selBOLoginBtn, Act.waitForSel "#username", Act.typeText "#username",
   Act.delay 1200 2500, Act.typeText "#password", Act.delay 800 1800,
   Act.qexists selRecaptcha]

/-- The actions of BetOnlineWorkflow.login after the wait loop: submit click,
pacing, popup probe, session save. -/
def boLoginSuffixTrace : List Act :=
  [Act.click selBOKcLogin, Act.delay 2500 4000,
   Act.qexists "button:has-text(\"GOT IT\")", Act.saveSession]

/-- Full trace of the timed-out CAPTCHA run. -/
def boTimeoutTrace : List Act := boLoginPrefixTrace ++ waitTrace 30 ++ boLoginSuffixTrace

/-- Full trace of the run solved at poll k. -/
def boSolvedTrace (k : Nat) : List Act :=
  boLoginPrefixTrace ++ waitTrace k ++ [Act.evalJs "captchaSolved"] ++ boLoginSuffixTrace

/-- BetOnlineWorkflow.login under a never-resolving CAPTCHA: the wait loop runs
its whole 30-poll budget, then the code falls through, clicks submit, saves the
session and returns success. -/
theorem loginBO_timeout_run (env : Env) (cfg : Config)
    (hu : truthy cfg.username = true) (hp : truthy cfg.password = true)
    (a0 : env.existsRes 0 selBOLoginBtn = Except.ok false)
    (a1 : env.existsRes 1 selBOKcLogin = Except.ok false)
    (a2 : env.existsRes 2 selBOBalance = Except.ok false)
    (a3 : env.existsRes 3 selBOLoginBtn = Except.ok false)
    (a4 : env.waitRes 4 "#username" = Except.ok ())
    (a5 : env.typeRes 5 "#username" = Except.ok ())
    (a6 : env.typeRes 6 "#password" = Except.ok ())
    (a7 : env.existsRes 7 selRecaptcha = Except.ok true)
    (aS : ∀ j, j < 30 → env.evalSolved (8 + 4 * j) = Except.ok false)
    (aP1 : ∀ j, j < 30 → env.existsRes (8 + 4 * j + 1) selBOLoginBtn = Except.ok false)
    (aP2 : ∀ j, j < 30 → env.existsRes (8 + 4 * j + 2) selBOKcLogin = Except.ok false)
    (aP3 : ∀ j, j < 30 → env.existsRes (8 + 4 * j + 3) selBOBalance = Except.ok false)
    (a8 : env.clickRes 128 selBOKcLogin = Except.ok ())
    (a9 : env.existsRes 129 "button:has-text(\"GOT IT\")" = Except.ok false)
    (a10 : env.saveRes 130 = Except.ok ()) :
    BetOnlineWorkflow.login env cfg st0 = (Except.ok mkSuccess, ⟨131, boTimeoutTrace⟩) := by
  unfold BetOnlineWorkflow.login BetOnlineWorkflow.isLoggedIn tryCatchM
  simp only [qexists, clickM, typeM, waitForM, sleepM, randomDelayM, saveSessionM,
    captchaPolls, M.bind_eval, M.pure_eval, M.purePure_eval, st0,
    a0, a1, a2, a3, a4, a5, a6, a7, hu, hp,
    Bool.or_self, Bool.false_eq_true, Bool.and_self, if_false, if_true, reduceIte,
    List.append_assoc, List.singleton_append, List.cons_append, List.nil_append]
  rw [captchaWait_timeout env 30
    ⟨8, [Act.qexists selBOLoginBtn, Act.qexists selBOKcLogin, Act.qexists selBOBalance,
         Act.qexists selBOLoginBtn, Act.waitForSel "#username", Act.typeText "#username",
         Act.delay 1200 2500, Act.typeText "#password", Act.delay 800 1800,
         Act.qexists selRecaptcha]⟩ aS aP1 aP2 aP3]
  have e128 : 8 + 4 * 30 = 128 := by omega
  have e129 : (128 : Nat) + 1 = 129 := rfl
  have e130 : (129 : Nat) + 1 = 130 := rfl
  have e131 : (130 : Nat) + 1 = 131 := rfl
  simp only [clickM, qexists, randomDelayM, saveSessionM, M.bind_eval, M.pure_eval,
    M.purePure_eval, e128, e129, e130, e131, a8, a9, a10,
    Bool.false_eq_true, if_false, reduceIte, boTimeoutTrace, boLoginPrefixTrace,
    boLoginSuffixTrace, List.append_assoc, List.singleton_append, List.cons_append,
    List.nil_append]
  try exact rfl

/-- BetOnlineWorkflow.login when the CAPTCHA resolves at poll k strictly before
the 30-poll window ends: the loop exits by break and login proceeds to submit,
save the session and return success. -/
theorem loginBO_solved_run (env : Env) (cfg : Config) (k : Nat) (hk : k < 30)
    (hu : truthy cfg.username = true) (hp : truthy cfg.password = true)
    (b0 : env.existsRes 0 selBOLoginBtn = Except.ok false)
    (b1 : env.existsRes 1 selBOKcLogin = Except.ok false)
    (b2 : env.existsRes 2 selBOBalance = Except.ok false)
    (b3 : env.existsRes 3 selBOLoginBtn = Except.ok false)
    (b4 : env.waitRes 4 "#username" = Except.ok ())
    (b5 : env.typeRes 5 "#username" = Except.ok ())
    (b6 : env.typeRes 6 "#password" = Except.ok ())
    (b7 : env.existsRes 7 selRecaptcha = Except.ok true)
    (bS : ∀ j, j < k → env.evalSolved (8 + 4 * j) = Except.ok false)
    (bP1 : ∀ j, j < k → env.existsRes (8 + 4 * j + 1) selBOLoginBtn = Except.ok false)
    (bP2 : ∀ j, j < k → env.existsRes (8 + 4 * j + 2) selBOKcLogin = Except.ok false)
    (bP3 : ∀ j, j < k → env.existsRes (8 + 4 * j + 3) selBOBalance = Except.ok false)
    (bSolved : env.evalSolved (8 + 4 * k) = Except.ok true)
    (b8 : env.clickRes (8 + 4 * k + 1) selBOKcLogin = Except.ok ())
    (b9 : env.existsRes (8 + 4 * k + 2) "button:has-text(\"GOT IT\")" = Except.ok false)
    (b10 : env.saveRes (8 + 4 * k + 3) = Except.ok ()) :
    BetOnlineWorkflow.login env cfg st0 = (Except.ok mkSuccess, ⟨8 + 4 * k + 4, boSolvedTrace k⟩) := by
  unfold BetOnlineWorkflow.login BetOnlineWorkflow.isLoggedIn tryCatchM
  simp only [qexists, clickM, typeM, waitForM, sleepM, randomDelayM, saveSessionM,
    captchaPolls, M.bind_eval, M.pure_eval, M.purePure_eval, st0,
    b0, b1, b2, b3, b4, b5, b6, b7, hu, hp,
    Bool.or_self, Bool.false_eq_true, Bool.and_self, if_false, if_true, reduceIte,
    List.append_assoc, List.singleton_append, List.cons_append, List.nil_append]
  rw [captchaWait_solved_at env k 30
    ⟨8, [Act.qexists selBOLoginBtn, Act.qexists selBOKcLogin, Act.qexists selBOBalance,
         Act.qexists selBOLoginBtn, Act.waitForSel "#username", Act.typeText "#username",
         Act.delay 1200 2500, Act.typeText "#password", Act.delay 800 1800,
         Act.qexists selRecaptcha]⟩ hk bS bP1 bP2 bP3 bSolved]
  have f2 : 8 + 4 * k + 1 + 1 = 8 + 4 * k + 2 := by omega
  have f3 : 8 + 4 * k + 2 + 1 = 8 + 4 * k + 3 := by omega
  have f4 : 8 + 4 * k + 3 + 1 = 8 + 4 * k + 4 := by omega
  simp only [clickM, qexists, randomDelayM, saveSessionM, M.bind_eval, M.pure_eval,
    M.purePure_eval, f2, f3, f4, b8, b9, b10,
    Bool.false_eq_true, if_false, reduceIte, boSolvedTrace, boLoginPrefixTrace,
    boLoginSuffixTrace, List.append_assoc, List.singleton_append, List.cons_append,
    List.nil_append]
  try exact rfl

/-- A full wait iteration contains exactly one 2000 ms sleep, so n iterations
contain exactly n. -/
theorem waitTrace_sleep_count (n : Nat) : (waitTrace n).count (Act.sleep 2000) = n := by
  induction n with
  | zero => rfl
  | succ n ih =>
    have h1 : waitIterTrace.count (Act.sleep 2000) = 1 := by decide
    rw [waitTrace, List.count_append, h1, ih]
    omega

/-- BetOnline login page with a reCAPTCHA challenge: the only matching
existence probe is the reCAPTCHA indicator (queried at call counter 7); every
mutating call succeeds; the challenge reports solved from the k-th poll of the
wait loop onward (poll i lands on call counter 8 + 4 * i). With k at 30 or
beyond the challenge never resolves inside the 60 second window. -/
def envBOCaptcha (k : Nat) : Env :=
  { baseEnv with
    existsRes := fun n _ => Except.ok (decide (n = 7))
    evalSolved := fun n => Except.ok (decide (8 + 4 * k ≤ n)) }

/-- Counterexample to C2: with a reCAPTCHA present that never resolves (its
poll reports unsolved at every call counter the run can reach) and login never
achieved during the wait, the 60 second window elapses and
BetOnlineWorkflow.login still returns a success result — the code falls
through to click the submit button and report success instead of returning the
failure the claim requires on timeout. -/
theorem c2_counterexample :
    BetOnlineWorkflow.login (envBOCaptcha 1000) cfgUP st0 = (Except.ok mkSuccess, ⟨131, boTimeoutTrace⟩) ∧
    mkSuccess.success = true ∧
    (∀ n, n < 200 → (envBOCaptcha 1000).evalSolved n = Except.ok false) := by
  refine ⟨loginBO_timeout_run (envBOCaptcha 1000) cfgUP (by decide) (by decide)
    rfl rfl rfl rfl rfl rfl rfl rfl
    (fun j hj => by simp only [envBOCaptcha, baseEnv]; simp; omega)
    (fun j hj => by simp only [envBOCaptcha, baseEnv]; simp; omega)
    (fun j hj => by simp only [envBOCaptcha, baseEnv]; simp; omega)
    (fun j hj => by simp only [envBOCaptcha, baseEnv]; simp; omega)
    rfl rfl rfl, rfl, ?_⟩
  intro n hn
  simp only [envBOCaptcha, baseEnv]
  simp
  omega

/-- C2 amended: on a logged-out BetOnline page with credentials and a detected
reCAPTCHA, login polls the challenge at the fixed 2 second interval for at most
the 60 second window (30 polls). If the challenge resolves at poll k strictly
before the window ends, the wait exits early after exactly k poll sleeps and
login returns success. But when the whole window elapses unresolved, after
exactly 30 poll sleeps the code falls through, submits the form anyway and
returns success as well — not the failure result the original claim stated for
the timeout case. -/
theorem c2_amended_captcha_wait (env1 env2 : Env) (cfg : Config) (k : Nat) (hk : k < 30)
    (hu : truthy cfg.username = true) (hp : truthy cfg.password = true)
    (a0 : env1.existsRes 0 selBOLoginBtn = Except.ok false)
    (a1 : env1.existsRes 1 selBOKcLogin = Except.ok false)
    (a2 : env1.existsRes 2 selBOBalance = Except.ok false)
    (a3 : env1.existsRes 3 selBOLoginBtn = Except.ok false)
    (a4 : env1.waitRes 4 "#username" = Except.ok ())
    (a5 : env1.typeRes 5 "#username" = Except.ok ())
    (a6 : env1.typeRes 6 "#password" = Except.ok ())
    (a7 : env1.existsRes 7 selRecaptcha = Except.ok true)
    (aS : ∀ j, j < 30 → env1.evalSolved (8 + 4 * j) = Except.ok false)
    (aP1 : ∀ j, j < 30 → env1.existsRes (8 + 4 * j + 1) selBOLoginBtn = Except.ok false)
    (aP2 : ∀ j, j < 30 → env1.existsRes (8 + 4 * j + 2) selBOKcLogin = Except.ok false)
    (aP3 : ∀ j, j < 30 → env1.existsRes (8 + 4 * j + 3) selBOBalance = Except.ok false)
    (a8 : env1.clickRes 128 selBOKcLogin = Except.ok ())
    (a9 : env1.existsRes 129 "button:has-text(\"GOT IT\")" = Except.ok false)
    (a10 : env1.saveRes 130 = Except.ok ())
    (b0 : env2.existsRes 0 selBOLoginBtn = Except.ok false)
    (b1 : env2.existsRes 1 selBOKcLogin = Except.ok false)
    (b2 : env2.existsRes 2 selBOBalance = Except.ok false)
    (b3 : env2.existsRes 3 selBOLoginBtn = Except.ok false)
    (b4 : env2.waitRes 4 "#username" = Except.ok ())
    (b5 : env2.typeRes 5 "#username" = Except.ok ())
    (b6 : env2.typeRes 6 "#password" = Except.ok ())
    (b7 : env2.existsRes 7 selRecaptcha = Except.ok true)
    (bS : ∀ j, j < k → env2.evalSolved (8 + 4 * j) = Except.ok false)
    (bP1 : ∀ j, j < k → env2.existsRes (8 + 4 * j + 1) selBOLoginBtn = Except.ok false)
    (bP2 : ∀ j, j < k → env2.existsRes (8 + 4 * j + 2) selBOKcLogin = Except.ok false)
    (bP3 : ∀ j, j < k → env2.existsRes (8 + 4 * j + 3) selBOBalance = Except.ok false)
    (bSolved : env2.evalSolved (8 + 4 * k) = Except.ok true)
    (b8 : env2.clickRes (8 + 4 * k + 1) selBOKcLogin = Except.ok ())
    (b9 : env2.existsRes (8 + 4 * k + 2) "button:has-text(\"GOT IT\")" = Except.ok false)
    (b10 : env2.saveRes (8 + 4 * k + 3) = Except.ok ()) :
    BetOnlineWorkflow.login env1 cfg st0 = (Except.ok mkSuccess, ⟨131, boTimeoutTrace⟩) ∧
    boTimeoutTrace.count (Act.sleep 2000) = 30 ∧
    BetOnlineWorkflow.login env2 cfg st0 = (Except.ok mkSuccess, ⟨8 + 4 * k + 4, boSolvedTrace k⟩) ∧
    (boSolvedTrace k).count (Act.sleep 2000) = k := by
  refine ⟨loginBO_timeout_run env1 cfg hu hp a0 a1 a2 a3 a4 a5 a6 a7 aS aP1 aP2 aP3
      a8 a9 a10, ?_,
    loginBO_solved_run env2 cfg k hk hu hp b0 b1 b2 b3 b4 b5 b6 b7 bS bP1 bP2 bP3
      bSolved b8 b9 b10, ?_⟩
  · have h1 : boLoginPrefixTrace.count (Act.sleep 2000) = 0 := by decide
    have h2 : boLoginSuffixTrace.count (Act.sleep 2000) = 0 := by decide
    rw [boTimeoutTrace, List.count_append, List.count_append, h1, h2,
      waitTrace_sleep_count]
    try omega
  · have h1 : boLoginPrefixTrace.count (Act.sleep 2000) = 0 := by decide
    have h2 : boLoginSuffixTrace.count (Act.sleep 2000) = 0 := by decide
    have h3 : ([Act.evalJs "captchaSolved"] : List Act).count (Act.sleep 2000) = 0 := by
      decide
    rw [boSolvedTrace, List.count_append, List.count_append, List.count_append, h1, h2,
      h3, waitTrace_sleep_count]
    omega

/-- Witness for C2's amended theorem: the never-resolving environment and the
environment resolving at poll 3. -/
theorem c2_witness :
    BetOnlineWorkflow.login (envBOCaptcha 1000) cfgUP st0 = (Except.ok mkSuccess, ⟨131, boTimeoutTrace⟩) ∧
    boTimeoutTrace.count (Act.sleep 2000) = 30 ∧
    BetOnlineWorkflow.login (envBOCaptcha 3) cfgUP st0
        = (Except.ok mkSuccess, ⟨8 + 4 * 3 + 4, boSolvedTrace 3⟩) ∧
    (boSolvedTrace 3).count (Act.sleep 2000) = 3 :=
  c2_amended_captcha_wait (envBOCaptcha 1000) (envBOCaptcha 3) cfgUP 3 (by omega)
    (by decide) (by decide)
    rfl rfl rfl rfl rfl rfl rfl rfl
    (fun j hj => by simp only [envBOCaptcha, baseEnv]; simp; omega)
    (fun j hj => by simp only [envBOCaptcha, baseEnv]; simp; omega)
    (fun j hj => by simp only [envBOCaptcha, baseEnv]; simp; omega)
    (fun j hj => by simp only [envBOCaptcha, baseEnv]; simp; omega)
    rfl rfl rfl
    rfl rfl rfl rfl rfl rfl rfl rfl
    (fun j hj => by simp only [envBOCaptcha, baseEnv]; simp; omega)
    (fun j hj => by simp only [envBOCaptcha, baseEnv]; simp; omega)
    (fun j hj => by simp only [envBOCaptcha, baseEnv]; simp; omega)
    (fun j hj => by simp only [envBOCaptcha, baseEnv]; simp; omega)
    (by decide) rfl rfl rfl

/-- One pagination iteration with an enabled next control: extract, probe the
next control, click it, pause, and continue with three more call counters and
four more trace actions. -/
theorem scrape411_step (env : Env) (fuel : Nat) (acc : List Bet411) (c : Nat)
    (tr : List Act) (bets : List Bet411)
    (hB : env.bets411 c = Except.ok bets)
    (hN : env.existsRes (c + 1) selNext411 = Except.ok true)
    (hC : env.clickRes (c + 2) selNext411 = Except.ok ()) :
    scrape411 env (fuel + 1) acc ⟨c, tr⟩
      = scrape411 env fuel (acc ++ bets)
          ⟨c + 3,
           tr ++ [Act.evalJs "extract411", Act.qexists selNext411,
                  Act.click selNext411, Act.sleep 1500]⟩ := by
  have e2 : c + 1 + 1 = c + 2 := by omega
  have e3 : c + 1 + 1 + 1 = c + 3 := by omega
  simp only [scrape411, extract411M, qexists, clickM, sleepM, M.bind_eval, M.pure_eval,
    M.purePure_eval, hB, hN, hC, e2, e3, if_true, reduceIte,
    List.append_assoc, List.singleton_append, List.cons_append, List.nil_append]

/-- The final pagination iteration: the next control is absent or disabled, so
the loop stops and returns everything accumulated. -/
theorem scrape411_last (env : Env) (fuel : Nat) (acc : List Bet411) (c : Nat)
    (tr : List Act) (bets : List Bet411)
    (hB : env.bets411 c = Except.ok bets)
    (hN : env.existsRes (c + 1) selNext411 = Except.ok false) :
    scrape411 env (fuel + 1) acc ⟨c, tr⟩
      = (Except.ok (some (acc ++ bets)),
         ⟨c + 2, tr ++ [Act.evalJs "extract411", Act.qexists selNext411]⟩) := by
  have e2 : c + 1 + 1 = c + 2 := by omega
  simp only [scrape411, extract411M, qexists, M.bind_eval, M.pure_eval, M.purePure_eval,
    hB, hN, e2, Bool.false_eq_true, if_false, reduceIte,
    List.append_assoc, List.singleton_append, List.cons_append, List.nil_append]
  try exact rfl

/-- A ticket record for the stuck-pagination fixture. -/
def stuckBet : Bet411 :=
  ⟨some "1", some "Straight", some "A vs B", some "1/2", some "7:00 PM",
   some "100/90", some "+90"⟩

/-- Sports411 page that is logged in, whose history always shows the same
single ticket, and whose next-page control always reports enabled (the
stuck-pagination scenario of the claim): every extraction round yields a
record set identical to the previous page's. -/
def envStuck411 : Env :=
  { baseEnv with
    existsRes := fun n _ => Except.ok (decide (2 ≤ n))
    bets411 := fun _ => Except.ok [stuckBet] }

/-- Against the stuck fixture the pagination loop never stops: whatever the
fuel, it runs out with the loop still going. -/
theorem scrape411_stuck (fuel : Nat) : ∀ (acc : List Bet411) (c : Nat) (tr : List Act),
    2 ≤ c → (scrape411 envStuck411 fuel acc ⟨c, tr⟩).1 = Except.ok none := by
  induction fuel with
  | zero => intro acc c tr _; rfl
  | succ fuel ih =>
    intro acc c tr hc
    have hB : envStuck411.bets411 c = Except.ok [stuckBet] := rfl
    have hN : envStuck411.existsRes (c + 1) selNext411 = Except.ok true := by
      simp only [envStuck411, baseEnv]
      simp
      omega
    have hC : envStuck411.clickRes (c + 2) selNext411 = Except.ok () := rfl
    rw [scrape411_step envStuck411 fuel acc c tr [stuckBet] hB hN hC]
    exact ih (acc ++ [stuckBet]) (c + 3) _ (by omega)

/-- Running the pagination loop over an honest N-page fixture whose next
control is enabled exactly until the last page: starting at page i, any fuel of
at least the number of remaining pages suffices, and the loop returns the
remaining pages' records appended in page order. -/
theorem scrape411_pages (env : Env) (pages : List (List Bet411)) (c0 : Nat)
    (hB : ∀ i, (h : i < pages.length) → env.bets411 (c0 + 3 * i) = Except.ok pages[i])
    (hN : ∀ i, i < pages.length →
      env.existsRes (c0 + 3 * i + 1) selNext411
        = Except.ok (decide (i + 1 < pages.length)))
    (hC : ∀ i, i + 1 < pages.length → env.clickRes (c0 + 3 * i + 2) selNext411
        = Except.ok ()) :
    ∀ (fuel i : Nat) (acc : List Bet411) (tr : List Act),
      i < pages.length → pages.length - i ≤ fuel →
      ∃ stf, scrape411 env fuel acc ⟨c0 + 3 * i, tr⟩
        = (Except.ok (some (acc ++ (pages.drop i).flatten)), stf) := by
  intro fuel
  induction fuel with
  | zero => intro i acc tr hi hf; omega
  | succ fuel ih =>
    intro i acc tr hi hf
    have hdrop : pages.drop i = pages[i] :: pages.drop (i + 1) :=
      List.drop_eq_getElem_cons hi
    have hBi := hB i hi
    by_cases hnext : i + 1 < pages.length
    · have hNi := hN i hi
      rw [decide_eq_true hnext] at hNi
      have hCi := hC i hnext
      rw [scrape411_step env fuel acc (c0 + 3 * i) tr pages[i] hBi hNi hCi]
      have e : c0 + 3 * i + 3 = c0 + 3 * (i + 1) := by ring
      rw [e]
      obtain ⟨stf, hrec⟩ := ih (i + 1) (acc ++ pages[i]) _ hnext (by omega)
      rw [hrec]
      refine ⟨stf, ?_⟩
      rw [hdrop]
      simp only [List.flatten_cons, List.append_assoc]
    · have hNi := hN i hi
      rw [decide_eq_false hnext] at hNi
      rw [scrape411_last env fuel acc (c0 + 3 * i) tr pages[i] hBi hNi]
      refine ⟨⟨c0 + 3 * i + 2, tr ++ [Act.evalJs "extract411", Act.qexists selNext411]⟩, ?_⟩
      rw [hdrop, List.drop_eq_nil_of_le (by omega)]
      simp only [List.flatten_cons, List.flatten_nil, List.append_nil]

/-- Against the stuck fixture, getBetHistory never finishes: whatever fuel the
pagination loop is given, it is exhausted with the loop still running (the
distinguished none outcome), because the code has no identical-record-set
check — it stops only when the next control reports absent or disabled. -/
theorem gbh411_stuck (fuel : Nat) :
    (Sports411Workflow.getBetHistory envStuck411 none none fuel st0).1 = Except.ok none := by
  have h0 : envStuck411.existsRes 0 sel411Form = Except.ok false := rfl
  have h1 : envStuck411.existsRes 1 sel411Btn = Except.ok false := rfl
  have hcl : envStuck411.clickRes 3 "text=History" = Except.ok () := rfl
  unfold Sports411Workflow.getBetHistory tryCatchM Sports411Workflow.isLoggedIn
  simp only [qexists, urlM, clickM, sleepM, evalUnitM, M.bind_eval, M.pure_eval,
    M.purePure_eval, h0, h1, hcl, st0, Bool.or_self, Bool.false_eq_true, Bool.not_true,
    Bool.not_false, if_false, if_true, reduceIte, Option.isSome_none, Bool.and_self,
    ite_self, List.append_assoc, List.singleton_append, List.cons_append, List.nil_append]
  rcases hsc : scrape411 envStuck411 fuel []
      ⟨4, [Act.qexists sel411Form, Act.qexists sel411Btn, Act.getUrl,
           Act.click "text=History", Act.sleep 2000]⟩ with ⟨r, stw⟩
  have hstuck := scrape411_stuck fuel [] 4
    [Act.qexists sel411Form, Act.qexists sel411Btn, Act.getUrl,
     Act.click "text=History", Act.sleep 2000] (by omega)
  rw [hsc] at hstuck
  simp only [] at hstuck
  subst hstuck
  simp only [hsc, M.pure_eval, M.purePure_eval]

/-- Counterexample to C1: the stuck fixture shows one page of records (the
extraction yields the identical record set every round, second conjunct), so
the claim's bound would let the loop run at most N + 1 = 2 iterations; but
with fuel for 3 iterations the loop is still running — there is no
identical-record-set termination check in Sports411Workflow.getBetHistory. -/
theorem c1_counterexample :
    (Sports411Workflow.getBetHistory envStuck411 none none 3 st0).1 = Except.ok none ∧
    (∀ n, envStuck411.bets411 n = Except.ok [stuckBet]) :=
  ⟨gbh411_stuck 3, fun _ => rfl⟩

/-- C1 amended: the pagination loop of Sports411Workflow.getBetHistory stops
exactly when no enabled next-page control exists. For an honest fixture of N
pages whose next control is enabled precisely until the last page, N loop
iterations suffice and the call returns all pages' records in page order; but
there is no identical-record-set defense, so against a stuck next control that
keeps reporting enabled over identical content, the loop never terminates — no
iteration bound (fuel) suffices. -/
theorem c1_amended_pagination (env : Env) (pages : List (List Bet411))
    (hne : pages ≠ [])
    (h0 : env.existsRes 0 sel411Form = Except.ok false)
    (h1 : env.existsRes 1 sel411Btn = Except.ok false)
    (hcl : env.clickRes 3 "text=History" = Except.ok ())
    (hB : ∀ i, (h : i < pages.length) → env.bets411 (4 + 3 * i) = Except.ok pages[i])
    (hN : ∀ i, i < pages.length → env.existsRes (4 + 3 * i + 1) selNext411
        = Except.ok (decide (i + 1 < pages.length)))
    (hC : ∀ i, i + 1 < pages.length → env.clickRes (4 + 3 * i + 2) selNext411
        = Except.ok ()) :
    (∃ stf, Sports411Workflow.getBetHistory env none none pages.length st0
        = (Except.ok (some (resultR true pages.flatten none)), stf)) ∧
    (∀ fuel, (Sports411Workflow.getBetHistory envStuck411 none none fuel st0).1 = Except.ok none) := by
  refine ⟨?_, gbh411_stuck⟩
  obtain ⟨stf, hs⟩ := scrape411_pages env pages 4 hB hN hC pages.length 0 []
    [Act.qexists sel411Form, Act.qexists sel411Btn, Act.getUrl,
     Act.click "text=History", Act.sleep 2000]
    (by cases pages with | nil => exact absurd rfl hne | cons a l => simp)
    (by omega)
  simp only [Nat.mul_zero, Nat.add_zero, List.drop_zero, List.nil_append] at hs
  refine ⟨stf, ?_⟩
  unfold Sports411Workflow.getBetHistory tryCatchM Sports411Workflow.isLoggedIn
  simp only [qexists, urlM, clickM, sleepM, evalUnitM, M.bind_eval, M.pure_eval,
    M.purePure_eval, h0, h1, hcl, st0, Bool.or_self, Bool.false_eq_true, Bool.not_true,
    Bool.not_false, if_false, if_true, reduceIte, Option.isSome_none, Bool.and_self,
    ite_self, List.append_assoc, List.singleton_append, List.cons_append, List.nil_append]
  rw [hs]
  exact rfl

/-- Records for the two-page fixture. -/
def bA : Bet411 := ⟨some "A1", none, none, none, none, none, none⟩
def bB : Bet411 := ⟨some "B1", none, none, none, none, none, none⟩

/-- Sports411 page that is logged in with a two-page history: the next control
is enabled only on page one (the probe at call counter 5). -/
def envTwoPages : Env :=
  { baseEnv with
    existsRes := fun n _ => Except.ok (decide (n = 5))
    bets411 := fun n => Except.ok (if n = 4 then [bA] else if n = 7 then [bB] else []) }

/-- Witness for C1's amended theorem at the concrete two-page fixture. -/
theorem c1_witness :
    (∃ stf, Sports411Workflow.getBetHistory envTwoPages none none 2 st0
        = (Except.ok (some (resultR true [bA, bB] none)), stf)) ∧
    (∀ fuel, (Sports411Workflow.getBetHistory envStuck411 none none fuel st0).1 = Except.ok none) :=
  c1_amended_pagination envTwoPages [[bA], [bB]] (by decide)
    rfl rfl rfl (by decide) (by decide)
    (fun i hi => by
      have hi0 : i = 0 := by simp at hi; omega
      subst hi0
      rfl)

/-- Sports411 page that always shows the login form (the even-numbered
existence probes match: the account-form probe, then each first fallback
selector of Sports411Workflow.login), so credential submission proceeds, yet
the page never reaches a logged-in state. -/
def env411bad : Env :=
  { baseEnv with existsRes := fun n _ => Except.ok (decide (n % 2 = 0)) }

/-- Counterexample to C5: Sports411Workflow.login submits credentials, saves
the session and returns success without any isLoggedIn re-check — in an
environment where a re-check performed right after the call still reports
logged out. So success is not gated on a confirming re-check, and saveSession
is triggered without confirmed login. -/
theorem c5_counterexample :
    (Sports411Workflow.login env411bad cfgUP st0).1 = Except.ok mkSuccess ∧
    Act.saveSession ∈ (Sports411Workflow.login env411bad cfgUP st0).2.tr ∧
    (Sports411Workflow.isLoggedIn env411bad (Sports411Workflow.login env411bad cfgUP st0).2).1 = Except.ok false := by
  decide

/-- Pinnacle page on which auto-login fails: only the sign-in button probe at
call counter 0 matches, so the post-submit re-check still reports logged out
and login falls back to the manual path. -/
def envPinFail : Env :=
  { baseEnv with existsRes := fun n _ => Except.ok (decide (n = 0)) }

/-- Pinnacle page on which auto-login succeeds: the sign-in button is present
initially (counter 0) and the account menu appears at the post-submit re-check
(counter 10). -/
def envPinOK : Env :=
  { baseEnv with existsRes := fun n _ => Except.ok (decide (n = 0 || n = 10)) }

/-- The trace of a successful Pinnacle credential login: probe, form entry with
pacing, submit, the five-probe re-check, then the session save. -/
def pinOkTrace : List Act :=
  [Act.qexists selPinSignIn, Act.qexists selPinUser, Act.qexists selPinPass,
   Act.waitForSel "#loginId", Act.typeText "#loginId", Act.delay 1200 2500,
   Act.typeText "#pass", Act.delay 800 1800, Act.click selPinSignIn,
   Act.delay 2500 4000, Act.qexists selPinSignIn, Act.qexists selPinUser,
   Act.qexists selPinPass, Act.qexists selPinMenu, Act.qexists selPinLogout,
   Act.saveSession]

/-- The trace of a failed Pinnacle credential login: as above but with no
session save, ending in the manual-path fallback. -/
def pinFailTrace : List Act :=
  [Act.qexists selPinSignIn, Act.qexists selPinUser, Act.qexists selPinPass,
   Act.waitForSel "#loginId", Act.typeText "#loginId", Act.delay 1200 2500,
   Act.typeText "#pass", Act.delay 800 1800, Act.click selPinSignIn,
   Act.delay 2500 4000, Act.qexists selPinSignIn, Act.qexists selPinUser,
   Act.qexists selPinPass, Act.qexists selPinMenu, Act.qexists selPinLogout,
   Act.baseLogin]

/-- The trace of a Sports411 credential login: probe, first-match field entry
and submit with pacing, then the unconditional session save — visibly no
isLoggedIn re-check between the submit click and the end. -/
def bad411Trace : List Act :=
  [Act.qexists sel411Form, Act.qexists sel411Btn,
   Act.qexists "input[placeholder=\"Account\"]",
   Act.typeText "input[placeholder=\"Account\"]", Act.delay 1200 2500,
   Act.qexists "input[placeholder=\"Password\"]",
   Act.typeText "input[placeholder=\"Password\"]", Act.delay 800 1800,
   Act.qexists "button:has-text(\"LOG IN\")", Act.click "button:has-text(\"LOG IN\")",
   Act.delay 3000 5000, Act.saveSession]

/-- BetOnline page that always shows the keycloak submit control, so the
isLoggedIn probe reports logged out at every point of the run; no reCAPTCHA is
present, so login goes straight from form entry to the submit click. -/
def envBObad : Env :=
  { baseEnv with existsRes := fun _ sel => Except.ok (sel == selBOKcLogin) }

/-- The trace of a BetOnline credential login without a CAPTCHA: probe, form
entry with pacing, submit, the promotional-popup probe, then the unconditional
session save — visibly no isLoggedIn re-check between the submit click and the
end (the only existence query after the click is the GOT IT popup probe). -/
def boBadTrace : List Act :=
  [Act.qexists selBOLoginBtn, Act.qexists selBOKcLogin, Act.qexists selBOLoginBtn,
   Act.waitForSel "#username", Act.typeText "#username", Act.delay 1200 2500,
   Act.typeText "#password", Act.delay 800 1800, Act.qexists selRecaptcha,
   Act.click selBOKcLogin, Act.delay 2500 4000,
   Act.qexists "button:has-text(\"GOT IT\")", Act.saveSession]

/-- C5 amended: only PinnacleWorkflow.login re-checks isLoggedIn after
submitting: it saves the session and returns success exactly when the re-check
confirms login, and on a failed re-check performs no save and falls back to
the manual path. Sports411Workflow.login and BetOnlineWorkflow.login save the
session and return success unconditionally after submission, with no re-check
at all: their traces end in the save with no logged-in probe after the submit
click, and in both fixtures a probe performed right after the call still
reports logged out. -/
theorem c5_amended_recheck (env : Env) (b1 b2 m l : Bool)
    (h0 : env.existsRes 0 selPinSignIn = Except.ok true)
    (h1 : env.existsRes 1 selPinUser = Except.ok b1)
    (h2 : env.existsRes 2 selPinPass = Except.ok b2)
    (h3 : env.waitRes 3 "#loginId" = Except.ok ())
    (h4 : env.typeRes 4 "#loginId" = Except.ok ())
    (h5 : env.typeRes 5 "#pass" = Except.ok ())
    (h6 : env.clickRes 6 selPinSignIn = Except.ok ())
    (h7 : env.existsRes 7 selPinSignIn = Except.ok false)
    (h8 : env.existsRes 8 selPinUser = Except.ok false)
    (h9 : env.existsRes 9 selPinPass = Except.ok false)
    (h10 : env.existsRes 10 selPinMenu = Except.ok m)
    (h11 : env.existsRes 11 selPinLogout = Except.ok l)
    (hml : (m || l) = true)
    (h12 : env.saveRes 12 = Except.ok ()) :
    PinnacleWorkflow.login env cfgUP st0 = (Except.ok mkSuccess, ⟨13, pinOkTrace⟩) ∧
    (PinnacleWorkflow.login envPinFail cfgUP st0
        = (Except.ok (mkFailure "manual login required"), ⟨13, pinFailTrace⟩) ∧
      Act.saveSession ∉ pinFailTrace) ∧
    (Sports411Workflow.login env411bad cfgUP st0 = (Except.ok mkSuccess, ⟨9, bad411Trace⟩) ∧
      Act.saveSession ∈ bad411Trace) ∧
    (BetOnlineWorkflow.login envBObad cfgUP st0
        = (Except.ok mkSuccess, ⟨10, boBadTrace⟩) ∧
      Act.saveSession ∈ boBadTrace ∧
      (BetOnlineWorkflow.isLoggedIn envBObad
        (BetOnlineWorkflow.login envBObad cfgUP st0).2).1 = Except.ok false) := by
  refine ⟨?_, ⟨by decide, by decide⟩, ⟨by decide, by decide⟩,
    ⟨by decide, by decide, by decide⟩⟩
  have hu : truthy cfgUP.username = true := by decide
  have hp : truthy cfgUP.password = true := by decide
  unfold PinnacleWorkflow.login PinnacleWorkflow.isLoggedIn tryCatchM
  simp only [qexists, waitForM, typeM, clickM, randomDelayM, saveSessionM, baseLoginM,
    M.bind_eval, M.pure_eval, M.purePure_eval, st0, hu, hp,
    h0, h1, h2, h3, h4, h5, h6, h7, h8, h9, h10, h11, hml, h12,
    Bool.true_or, Bool.or_true, Bool.or_self, Bool.and_self, Bool.false_eq_true,
    if_true, if_false, reduceIte, pinOkTrace,
    List.append_assoc, List.singleton_append, List.cons_append, List.nil_append]
  try exact rfl

/-- Witness for C5's amended theorem at the concrete successful-login page. -/
theorem c5_witness :
    PinnacleWorkflow.login envPinOK cfgUP st0 = (Except.ok mkSuccess, ⟨13, pinOkTrace⟩) ∧
    (PinnacleWorkflow.login envPinFail cfgUP st0
        = (Except.ok (mkFailure "manual login required"), ⟨13, pinFailTrace⟩) ∧
      Act.saveSession ∉ pinFailTrace) ∧
    (Sports411Workflow.login env411bad cfgUP st0 = (Except.ok mkSuccess, ⟨9, bad411Trace⟩) ∧
      Act.saveSession ∈ bad411Trace) ∧
    (BetOnlineWorkflow.login envBObad cfgUP st0
        = (Except.ok mkSuccess, ⟨10, boBadTrace⟩) ∧
      Act.saveSession ∈ boBadTrace ∧
      (BetOnlineWorkflow.isLoggedIn envBObad
        (BetOnlineWorkflow.login envBObad cfgUP st0).2).1 = Except.ok false) :=
  c5_amended_recheck envPinOK false false true false
    rfl rfl rfl rfl rfl rfl rfl rfl rfl rfl rfl rfl (by decide) rfl

/-- If the first computation returns normally whatever the state, and the
continuation does too, so does the bind. -/
theorem M.bind_total {α β : Type} (m : M α) (k : α → M β) (st : MSt)
    (hm : ∃ a st1, m st = (Except.ok a, st1))
    (hk : ∀ a st1, ∃ b st2, k a st1 = (Except.ok b, st2)) :
    ∃ b st2, (m >>= k) st = (Except.ok b, st2) := by
  obtain ⟨a, st1, ha⟩ := hm
  obtain ⟨b, st2, hb⟩ := hk a st1
  refine ⟨b, st2, ?_⟩
  rw [M.bind_def]
  unfold M.bind
  rw [ha]
  exact hb

/-- A page whose every existence probe throws a capability fault. -/
def envThrow : Env :=
  { baseEnv with existsRes := fun _ _ => Except.error "page detached" }

/-- Counterexample to C8: in all three workflows the initial isLoggedIn probe
of login runs outside the try/catch, so a capability fault thrown there
propagates out of the public login operation to the caller instead of being
converted into a failure WorkflowResult. -/
theorem c8_counterexample :
    (Sports411Workflow.login envThrow cfgUP st0).1 = Except.error "page detached" ∧
    (BetOnlineWorkflow.login envThrow cfgUP st0).1 = Except.error "page detached" ∧
    (PinnacleWorkflow.login envThrow cfgUP st0).1 = Except.error "page detached" := by
  decide

/-- Sports411 page whose field-typing capability throws: the form is present,
so login reaches the credential sequence and the fault is raised inside the
try block. -/
def envFault411 : Env :=
  { baseEnv with
    existsRes := fun n _ => Except.ok (decide (n % 2 = 0))
    typeRes := fun _ _ => Except.error "boom" }

/-- C8 amended: every fault raised inside getBetHistory is caught and
converted into a failure result, for all three workflows and all environments
(the calls always return normally); in login, every fault raised after the
initial logged-in probe is likewise caught — login can only throw when the
initial isLoggedIn probe itself throws (or, for Pinnacle, when the spec-modelled
manual fallback throws, which runs outside any try). A fault raised inside the
credential sequence is converted into a failure result carrying the original
message (final conjunct). -/
theorem c8_amended_fault_boundary :
    (∀ env d1 d2 fuel st, ∃ r st1, Sports411Workflow.getBetHistory env d1 d2 fuel st = (Except.ok r, st1)) ∧
    (∀ env d1 d2 st, ∃ r st1, BetOnlineWorkflow.getBetHistory env d1 d2 st = (Except.ok r, st1)) ∧
    (∀ env d1 d2 st, ∃ r st1, PinnacleWorkflow.getBetHistory env d1 d2 st = (Except.ok r, st1)) ∧
    (∀ env cfg st b st1, Sports411Workflow.isLoggedIn env st = (Except.ok b, st1) →
      ∃ r st2, Sports411Workflow.login env cfg st = (Except.ok r, st2)) ∧
    (∀ env cfg st b st1, BetOnlineWorkflow.isLoggedIn env st = (Except.ok b, st1) →
      ∃ r st2, BetOnlineWorkflow.login env cfg st = (Except.ok r, st2)) ∧
    (∀ env cfg st b st1, PinnacleWorkflow.isLoggedIn env st = (Except.ok b, st1) →
      (∀ n, ∃ w, env.baseLoginRes n = Except.ok w) →
      ∃ r st2, PinnacleWorkflow.login env cfg st = (Except.ok r, st2)) ∧
    (Sports411Workflow.login envFault411 cfgUP st0).1 = Except.ok (mkFailure "boom") := by
  refine ⟨?_, ?_, ?_, ?_, ?_, ?_, by decide⟩
  · intro env d1 d2 fuel st
    unfold Sports411Workflow.getBetHistory
    exact tryCatchM_total _ (fun e => some (resultR false [] (some e))) st
  · intro env d1 d2 st
    unfold BetOnlineWorkflow.getBetHistory
    exact tryCatchM_total _ (fun e => resultR false [] (some e)) st
  · intro env d1 d2 st
    unfold PinnacleWorkflow.getBetHistory
    exact tryCatchM_total _ (fun e => resultR false [] (some e)) st
  · intro env cfg st b st1 h
    unfold Sports411Workflow.login
    refine M.bind_total _ _ st ⟨b, st1, h⟩ ?_
    intro a st2
    cases a
    · by_cases hc : (truthy cfg.username && truthy cfg.password) = true
      · simp only [Bool.false_eq_true, if_false, reduceIte, hc, if_true]
        exact tryCatchM_total _ (fun e => mkFailure e) st2
      · simp only [Bool.false_eq_true, if_false, reduceIte, hc]
        exact ⟨mkFailure noCredsMsg, st2, rfl⟩
    · exact ⟨mkSuccess, st2, rfl⟩
  · intro env cfg st b st1 h
    unfold BetOnlineWorkflow.login
    refine M.bind_total _ _ st ⟨b, st1, h⟩ ?_
    intro a st2
    cases a
    · by_cases hc : (truthy cfg.username && truthy cfg.password) = true
      · simp only [Bool.false_eq_true, if_false, reduceIte, hc, if_true]
        exact tryCatchM_total _ (fun e => mkFailure e) st2
      · simp only [Bool.false_eq_true, if_false, reduceIte, hc]
        exact ⟨mkFailure noCredsMsg, st2, rfl⟩
    · exact ⟨mkSuccess, st2, rfl⟩
  · intro env cfg st b st1 h hbase
    unfold PinnacleWorkflow.login
    refine M.bind_total _ _ st ⟨b, st1, h⟩ ?_
    intro a st2
    cases a
    · simp only [Bool.false_eq_true, if_false, reduceIte]
      by_cases hc : (truthy cfg.username && truthy cfg.password) = true
      · simp only [hc, if_true, reduceIte]
        refine M.bind_total _ _ st2
          (tryCatchM_total _ (fun _ => (none : Option (WorkflowResult Unit))) st2) ?_
        intro att st3
        cases att with
        | none =>
          obtain ⟨w, hw⟩ := hbase st3.ctr
          exact ⟨w, ⟨st3.ctr + 1, st3.tr ++ [Act.baseLogin]⟩, by simp only [baseLoginM, hw]⟩
        | some r => exact ⟨r, st3, rfl⟩
      · simp only [hc, reduceIte]
        refine M.bind_total _ _ st2 ⟨none, st2, rfl⟩ ?_
        intro att st3
        cases att with
        | none =>
          obtain ⟨w, hw⟩ := hbase st3.ctr
          exact ⟨w, ⟨st3.ctr + 1, st3.tr ++ [Act.baseLogin]⟩, by simp only [baseLoginM, hw]⟩
        | some r => exact ⟨r, st3, rfl⟩
    · exact ⟨mkSuccess, st2, rfl⟩

/-- Witness for C8's amended theorem: a no-credentials login on a logged-out
page returns normally. -/
theorem c8_witness :
    ∃ r st2, Sports411Workflow.login env411LoggedOut cfgNone st0 = (Except.ok r, st2) :=
  c8_amended_fault_boundary.2.2.2.1 env411LoggedOut cfgNone st0 false
    ⟨2, [Act.qexists sel411Form, Act.qexists sel411Btn]⟩ (by decide)
